import Mathlib

/-!
# amp-ad-exit 0.1: the configuration validator (`config.js`)

A shallow embedding of `extensions/amp-ad-exit/0.1/config.js` and theorems about it.

The validator receives an untyped value (`@param {*} config`), so the embedding works
over a small model of JavaScript values, `JSVal`: the JSON data model plus `undefined`,
plus the built-in functions that a property read can reach through the prototype chain.
Every primitive the source applies to such a value is modelled on the whole of `JSVal`:

* `typeof v`                     is `JSVal.typeOf`   (`typeof null` is `'object'`);
* truthiness (`if (v)`, `&&`)    is `JSVal.truthy`;
* `for (const k in v)`           is `JSVal.forInKeys` (no iteration over `null`, `undefined`,
                                 numbers and booleans; indices over arrays and strings);
* `v[k]`, `v.k`                  is `JSVal.get`      (a `TypeError` on `null`/`undefined`,
                                 own properties first, then the prototype chain);
* `v.k = x`                      is `JSVal.set`;
* `ToString` / `ToPropertyKey`   is `JSVal.toStr`;
* `v == 'tag'`                   is `JSVal.looseEqTag`.

Modelling conventions.  Numbers are integers of magnitude below `10^21` (the only facts
used about a number are whether it is zero and its decimal text).  The property list of an object is its list of
own enumerable properties in `for-in` enumeration order; a read takes the first entry with
the key.  A thrown exception is a value of `Failure`; a function that can throw returns
`Except Failure _`.  The in-place mutation of `config` by `assertConfig` is explicit state
passing: the function returns the mutated object.
-/

namespace AmpAdExit

/-! ## JavaScript values -/

/-- JavaScript values: the JSON data model, `undefined`, and built-in functions. An array
carries its elements and, separately, the named (non-index) properties assigned to it. -/
inductive JSVal where
  | undefined
  | null
  | bool (b : Bool)
  | num (n : Int)
  | str (s : String)
  | arr (items : List JSVal) (named : List (String × JSVal))
  | obj (props : List (String × JSVal))
  | builtin (name : String)

/-- What a failed call throws: either the error raised by `user().assert` (its message
format, when one is passed, and the arguments substituted into it), or a runtime
`TypeError` of the language (a property read on `null`/`undefined`, a call of a value that
is not a function, a failed conversion to a primitive). -/
inductive Failure where
  | userError (message : Option String) (args : List JSVal)
  | typeError

namespace JSVal

/-- The operator `typeof v`. -/
def typeOf : JSVal → String
  | undefined => "undefined"
  | null => "object"
  | bool _ => "boolean"
  | num _ => "number"
  | str _ => "string"
  | arr _ _ => "object"
  | obj _ => "object"
  | builtin _ => "function"

/-- Truthiness: `undefined`, `null`, `false`, `0` and `''` are falsy, all else is truthy. -/
def truthy : JSVal → Bool
  | undefined => false
  | null => false
  | bool b => b
  | num n => n != 0
  | str s => s != ""
  | arr _ _ => true
  | obj _ => true
  | builtin _ => true

/-- The test `v === undefined`. -/
def isUndefined : JSVal → Bool
  | undefined => true
  | _ => false

/-- The test `v == null`, that is: `v` is `null` or `undefined`. -/
def isNullish : JSVal → Bool
  | undefined => true
  | null => true
  | _ => false

/-- The index keys `'0'`, ..., of an array or string of length `n`, in ascending order. -/
def indexKeys (n : Nat) : List String :=
  (List.range n).map toString

/-- The keys visited by `for (const k in v)`: the own enumerable properties, indices
first. The loop body never runs for `null`, `undefined`, a number, a boolean or a
function. -/
def forInKeys : JSVal → List String
  | obj props => props.map Prod.fst
  | arr items named => indexKeys items.length ++ named.map Prod.fst
  | str s => indexKeys s.length
  | _ => []

/-- The value of a string of decimal digits. -/
def digitsValue (cs : List Char) : Nat :=
  cs.foldl (fun n c => 10 * n + (c.toNat - 48)) 0

/-- The array index a property key denotes, when it is a canonical numeric string
(`'0'`, or decimal digits without a leading zero). -/
def parseIndex (k : String) : Option Nat :=
  match k.toList with
  | [] => none
  | [c] => if c.isDigit then some (c.toNat - 48) else none
  | c :: cs => if c != '0' && (c :: cs).all Char.isDigit then some (digitsValue (c :: cs)) else none

/-- Property names of `Object.prototype`. -/
def objectPrototype : List String :=
  ["constructor", "hasOwnProperty", "isPrototypeOf", "propertyIsEnumerable",
   "toLocaleString", "toString", "valueOf", "__defineGetter__", "__defineSetter__",
   "__lookupGetter__", "__lookupSetter__"]

/-- Property names of `Array.prototype`, those of the engines of the time of the source
and those added since (`flat`, `flatMap`, `at`, ...). -/
def arrayPrototype : List String :=
  ["concat", "copyWithin", "entries", "every", "fill", "filter", "find", "findIndex",
   "forEach", "includes", "indexOf", "join", "keys", "lastIndexOf", "map", "pop", "push",
   "reduce", "reduceRight", "reverse", "shift", "slice", "some", "sort", "splice",
   "unshift", "values", "flat", "flatMap", "at", "findLast", "findLastIndex", "toReversed",
   "toSorted", "toSpliced", "with"]

/-- Property names of `String.prototype`, those of the engines of the time of the source
and those added since (`matchAll`, `replaceAll`, `at`, ...). -/
def stringPrototype : List String :=
  ["anchor", "big", "blink", "bold", "charAt", "charCodeAt", "codePointAt", "concat",
   "endsWith", "fixed", "fontcolor", "fontsize", "includes", "indexOf", "italics",
   "lastIndexOf", "link", "localeCompare", "match", "normalize", "padEnd", "padStart",
   "repeat", "replace", "search", "slice", "small", "split", "startsWith", "strike", "sub",
   "substr", "substring", "sup", "toLocaleLowerCase", "toLocaleUpperCase", "toLowerCase",
   "toUpperCase", "trim", "trimLeft", "trimRight", "trimStart", "trimEnd", "matchAll",
   "replaceAll", "at", "isWellFormed", "toWellFormed"]

/-- Property names of `Number.prototype`. -/
def numberPrototype : List String :=
  ["toExponential", "toFixed", "toPrecision"]

/-- Property names of `Function.prototype`. -/
def functionPrototype : List String :=
  ["apply", "bind", "call"]

/-- The names a value inherits along its prototype chain. -/
def inheritedNames : JSVal → List String
  | arr _ _ => arrayPrototype ++ objectPrototype
  | str _ => stringPrototype ++ objectPrototype
  | num _ => numberPrototype ++ objectPrototype
  | builtin _ => functionPrototype ++ objectPrototype
  | _ => objectPrototype

/-- The value of a property that is not an own enumerable one: the `length` of an array
or a string, the prototype object under `__proto__`, a built-in function under an
inherited name, and `undefined` otherwise. -/
def hidden (v : JSVal) (k : String) : JSVal :=
  match v, k == "length" with
  | arr items _, true => num items.length
  | str s, true => num s.length
  | _, _ =>
    if k == "__proto__" then obj []
    else if (inheritedNames v).contains k then builtin k
    else undefined

/-- The property read `v[k]` (`v.k`): a `TypeError` when `v` is `null` or `undefined`;
otherwise the own property when there is one (an element or character under an index
key, a named property under another key) and the inherited one when not. -/
def get (v : JSVal) (k : String) : Except Failure JSVal :=
  match v with
  | undefined => .error .typeError
  | null => .error .typeError
  | obj props =>
    match props.lookup k with
    | some x => .ok x
    | none => .ok (hidden v k)
  | arr items named =>
    match parseIndex k with
    | some i => .ok (items.getD i undefined)
    | none =>
      match named.lookup k with
      | some x => .ok x
      | none => .ok (hidden v k)
  | str s =>
    match parseIndex k with
    | some i =>
      match s.toList.get? i with
      | some c => .ok (str (String.singleton c))
      | none => .ok undefined
    | none => .ok (hidden v k)
  | v => .ok (hidden v k)

/-- Assignment in a property list: the first entry with the key gets the new value and
keeps its place; a new key is appended. -/
def assign (k : String) (x : JSVal) : List (String × JSVal) → List (String × JSVal)
  | [] => [(k, x)]
  | (k', y) :: rest => if k' == k then (k, x) :: rest else (k', y) :: assign k x rest

/-- The assignment `v.k = x` for a named (non-index) key `k`, as the validator performs
it on `config` (the names `filters` and `transport`); the module is strict-mode code, so
assigning to a property of a primitive throws. -/
def set (v : JSVal) (k : String) (x : JSVal) : Except Failure JSVal :=
  match v with
  | obj props => .ok (obj (assign k x props))
  | arr items named => .ok (arr items (assign k x named))
  | _ => .error .typeError

/-- Whether a property list has an entry with the key. -/
def hasKey (k : String) (ps : List (String × JSVal)) : Bool :=
  ps.any fun p => p.1 == k

mutual
/-- The conversion `ToString(v)` (also `ToPropertyKey(v)` and the operand conversion of
string concatenation); `none` is the `TypeError` of an object that cannot be converted
to a primitive (its own `toString` property is not a function). A number is printed in
plain decimal, which is its JavaScript text for an integer of magnitude below `10^21`
(from there on JavaScript prints the exponent form, which is not modelled). -/
def toStr : JSVal → Option String
  | undefined => some "undefined"
  | null => some "null"
  | bool b => some (if b then "true" else "false")
  | num n => some (toString n)
  | str s => some s
  | arr items named =>
    if hasKey "toString" named then none
    else if hasKey "join" named then some "[object Array]"
    else joinItems items
  | obj props => if hasKey "toString" props then none else some "[object Object]"
  | builtin name => some ("function " ++ name ++ "() \x7b [native code] \x7d")
termination_by structural v => v
/-- The text of `Array.prototype.join` with the separator `','`: `null` and `undefined`
elements give the empty string. -/
def joinItems : List JSVal → Option String
  | [] => some ""
  | x :: rest =>
    match (if isNullish x then some "" else toStr x), rest, joinItems rest with
    | some a, [], _ => some a
    | some a, _ :: _, some b => some (a ++ "," ++ b)
    | _, _, _ => none
termination_by structural l => l
end

/-- The conversion `ToPropertyKey(v)` as a step that can throw. -/
def toKey (v : JSVal) : Except Failure String :=
  match v.toStr with
  | some s => .ok s
  | none => .error .typeError

/-- The loose comparison `v == tag` with a string `tag` that is not a numeric literal
(so that `ToNumber(tag)` is `NaN`): a string is compared as a string, an object is first
converted to a primitive, every other value is unequal. -/
def looseEqTag (v : JSVal) (tag : String) : Except Failure Bool :=
  match v with
  | str s => .ok (s == tag)
  | arr _ _ => (toKey v).map fun s => s == tag
  | obj _ => (toKey v).map fun s => s == tag
  | builtin _ => (toKey v).map fun s => s == tag
  | _ => .ok false

end JSVal

/-! ## Control flow -/

/-- A loop whose body can throw: the bodies run in order and the first exception ends
the loop (`for ... in` and `Array.prototype.forEach`). -/
def forEachM {α : Type} (body : α → Except Failure Unit) : List α → Except Failure Unit
  | [] => .ok ()
  | x :: rest =>
    match body x with
    | .ok _ => forEachM body rest
    | .error e => .error e

/-- Modelled from the spec: `user().assert(cond, message, ...args)` of `src/log`, which
is not part of the sources at hand. It returns when `cond` is truthy and otherwise raises
the user error carrying the message format and its arguments. -/
def userAssert (cond : JSVal) (message : Option String) (args : List JSVal) :
    Except Failure Unit :=
  if cond.truthy then .ok () else .error (.userError message args)

/-! ## Constants -/

/-- The enum `TransportMode`. -/
def TransportMode.BEACON : String := "beacon"

/-- The enum `TransportMode`. -/
def TransportMode.IMAGE : String := "image"

/-- Modelled from the spec: the enum `FilterType` of `./filters/filter`, which is not part
of the sources at hand; the spec gives the variant values `CLICK_DELAY` and
`CLICK_LOCATION`. -/
def FilterType.CLICK_DELAY : String := "CLICK_DELAY"

/-- Modelled from the spec: the enum `FilterType` of `./filters/filter` (see
`FilterType.CLICK_DELAY`). -/
def FilterType.CLICK_LOCATION : String := "CLICK_LOCATION"

/-- A character of the class `[a-zA-Z0-9_-]`. -/
def patternChar (c : Char) : Bool :=
  c.isAlphanum || c == '_' || c == '-'

/-- The test `/^_[a-zA-Z0-9_-]+$/.test(s)`. -/
def patternTest (s : String) : Bool :=
  match s.toList with
  | '_' :: c :: rest => (c :: rest).all patternChar
  | _ => false

/-- The regular expression passed as the second message argument, as `%s` prints it. -/
def patternText : String := "/^_[a-zA-Z0-9_-]+$/"

/-! ## The validator -/

/-- The body of the loop of `assertTransport`, for the key `t`. -/
def assertTransportEntry (transport : JSVal) (t : String) : Except Failure Unit := do
  userAssert (.bool (t == TransportMode.BEACON || t == TransportMode.IMAGE))
    (some ("Unknown transport option: '" ++ t ++ "'")) []
  let value ← transport.get t
  userAssert (.bool (value.typeOf == "boolean")) none []

/-- The function `assertTransport(transport)`. -/
def assertTransport (transport : JSVal) : Except Failure Unit :=
  forEachM (assertTransportEntry transport) transport.forInKeys

/-- The body of the loop of `assertFilters`, for the key `name`. -/
def assertFilter (filters : JSVal) (name : String) : Except Failure Unit := do
  let entry ← filters.get name
  userAssert (.bool (entry.typeOf == "object"))
    (some "Filter specification '%s' is malformed") [.str name]
  let type ← entry.get "type"
  let isDelay ← type.looseEqTag FilterType.CLICK_DELAY
  let supported ← if isDelay then pure true else type.looseEqTag FilterType.CLICK_LOCATION
  userAssert (.bool supported)
    (some "Only ClickDelayFilter and ClickLocationDelay are currently supported.") []

/-- The function `assertFilters(filters)`. -/
def assertFilters (filters : JSVal) : Except Failure Unit :=
  forEachM (assertFilter filters) filters.forInKeys

/-- The function `assertVendor(vendor)`; `ANALYTICS_CONFIG` is the vendor catalog imported
from `amp-analytics/0.1/vendors`, which is not part of the sources at hand and is taken as
a parameter. The condition is the `&&` chain of the source, evaluated left to right; the
message `'Unknown vendor: ' + vendor` is evaluated after it. -/
def assertVendor (ANALYTICS_CONFIG : JSVal) (vendor : JSVal) : Except Failure Unit := do
  let cond ←
    if !ANALYTICS_CONFIG.truthy then pure ANALYTICS_CONFIG
    else do
      let key ← vendor.toKey
      let entry ← ANALYTICS_CONFIG.get key
      if entry.isUndefined then pure (JSVal.bool false)
      else do
        let transport ← entry.get "transport"
        if transport.isUndefined then pure (JSVal.bool false)
        else do
          let iframe ← transport.get "iframe"
          pure (JSVal.bool (!iframe.isUndefined))
  let text ← vendor.toKey
  userAssert cond (some ("Unknown vendor: " ++ text)) []

/-- The callback of `target.filters.forEach` in `assertTarget`, for the element `filter`. -/
def assertFilterRef (config : JSVal) (filter : JSVal) : Except Failure Unit := do
  let catalog ← config.get "filters"
  let key ← filter.toKey
  let found ← catalog.get key
  userAssert found (some "filter '%s' not defined") [filter]

/-- The body of the loop over `target.vars` in `assertTarget`, for the key `variable` of
the source (`varName` here). -/
def assertVariable (ANALYTICS_CONFIG : JSVal) (vars : JSVal) (varName : String) :
    Except Failure Unit := do
  userAssert (.bool (patternTest varName))
    (some "'%s' must match the pattern '%s'") [.str varName, .str patternText]
  let value ← vars.get varName
  let vendor ← value.get "vendorAnalyticsSource"
  if vendor.truthy then
    assertVendor ANALYTICS_CONFIG vendor
    let responseKey ← value.get "vendorAnalyticsResponseKey"
    userAssert responseKey
      (some ("Variable '%s': If vendorAnalyticsSource is defined then " ++
        "vendorAnalyticsResponseKey must also be defined")) [.str varName]

/-- The statement `if (target.filters) {...}` of `assertTarget`, for the value `filters`
of `target.filters`. Only an array has a callable `forEach`: on any other truthy value
the call throws a `TypeError`. -/
def assertTargetFilters (config filters : JSVal) : Except Failure Unit :=
  if filters.truthy then
    match filters with
    | .arr items named =>
      if JSVal.hasKey "forEach" named then throw Failure.typeError
      else forEachM (assertFilterRef config) items
    | _ => throw Failure.typeError
  else pure ()

/-- The statement `if (target.vars) {...}` of `assertTarget`, for the value `vars` of
`target.vars`. -/
def assertTargetVars (ANALYTICS_CONFIG vars : JSVal) : Except Failure Unit :=
  if vars.truthy then forEachM (assertVariable ANALYTICS_CONFIG vars) vars.forInKeys
  else pure ()

/-- The function `assertTarget(name, target, config)`. -/
def assertTarget (ANALYTICS_CONFIG : JSVal) (name : String) (target config : JSVal) :
    Except Failure Unit := do
  let finalUrl ← target.get "finalUrl"
  userAssert (.bool (finalUrl.typeOf == "string"))
    (some "finalUrl of target '%s' must be a string") [.str name]
  let filters ← target.get "filters"
  assertTargetFilters config filters
  let vars ← target.get "vars"
  assertTargetVars ANALYTICS_CONFIG vars

/-- The body of the loop of `assertTargets`, for the key `target`. -/
def assertTargetsEntry (ANALYTICS_CONFIG : JSVal) (targets config : JSVal) (target : String) :
    Except Failure Unit := do
  let value ← targets.get target
  assertTarget ANALYTICS_CONFIG target value config

/-- The function `assertTargets(targets, config)`. -/
def assertTargets (ANALYTICS_CONFIG : JSVal) (targets config : JSVal) :
    Except Failure Unit := do
  userAssert (.bool (targets.typeOf == "object")) (some "'targets' must be an object") []
  forEachM (assertTargetsEntry ANALYTICS_CONFIG targets config) targets.forInKeys

/-- The statement `if (config.filters) {...} else {...}` of `assertConfig`; the result is
`config` after it. -/
def assertConfigFilters (config : JSVal) : Except Failure JSVal := do
  let filters ← config.get "filters"
  if filters.truthy then
    assertFilters filters
    pure config
  else config.set "filters" (.obj [])

/-- The statement `if (config.transport) {...} else {...}` of `assertConfig`; the result is
`config` after it. -/
def assertConfigTransport (config : JSVal) : Except Failure JSVal := do
  let transport ← config.get "transport"
  if transport.truthy then
    assertTransport transport
    pure config
  else config.set "transport" (.obj [])

/-- The function `assertConfig(config)`; the result is the (mutated) `config`. -/
def assertConfig (ANALYTICS_CONFIG : JSVal) (config : JSVal) : Except Failure JSVal := do
  userAssert (.bool (config.typeOf == "object")) none []
  let config ← assertConfigFilters config
  let config ← assertConfigTransport config
  let targets ← config.get "targets"
  assertTargets ANALYTICS_CONFIG targets config
  pure config

/-! ## The error kinds of the specification -/

/-- NotAnObject, at the top level: the message-less assertion on `typeof config`. -/
def NotAnObject : Failure := .userError none []

/-- NotAnObject, for `targets`. -/
def TargetsNotAnObject : Failure := .userError (some "'targets' must be an object") []

/-- UnknownTransportMode, naming the key. -/
def UnknownTransportMode (t : String) : Failure :=
  .userError (some ("Unknown transport option: '" ++ t ++ "'")) []

/-- InvalidTransportValue: the message-less assertion on `typeof transport[t]`. -/
def InvalidTransportValue : Failure := .userError none []

/-- MalformedFilter, naming the entry. -/
def MalformedFilter (name : String) : Failure :=
  .userError (some "Filter specification '%s' is malformed") [.str name]

/-- UnsupportedFilterType. -/
def UnsupportedFilterType : Failure :=
  .userError (some "Only ClickDelayFilter and ClickLocationDelay are currently supported.") []

/-- MissingFinalUrl, naming the target. -/
def MissingFinalUrl (name : String) : Failure :=
  .userError (some "finalUrl of target '%s' must be a string") [.str name]

/-- UndefinedFilterReference, with the referenced filter as its argument. -/
def UndefinedFilterReference (filter : JSVal) : Failure :=
  .userError (some "filter '%s' not defined") [filter]

/-- InvalidVariableName, naming the variable and the pattern. -/
def InvalidVariableName (varName : String) : Failure :=
  .userError (some "'%s' must match the pattern '%s'") [.str varName, .str patternText]

/-- UnknownVendor, naming the vendor. -/
def UnknownVendor (vendor : String) : Failure :=
  .userError (some ("Unknown vendor: " ++ vendor)) []

/-- MissingVendorResponseKey, naming the variable. -/
def MissingVendorResponseKey (varName : String) : Failure :=
  .userError (some ("Variable '%s': If vendorAnalyticsSource is defined then " ++
    "vendorAnalyticsResponseKey must also be defined")) [.str varName]

/-! ## Notions used in the statements -/

open JSVal

/-- An entry of a transport mapping is valid: its key is `beacon` or `image` and its
value is a boolean. -/
def ValidTransportEntry (transport : JSVal) (t : String) : Prop :=
  (t = "beacon" ∨ t = "image") ∧ ∃ b, transport.get t = .ok (bool b)

/-- The config `{targets: {t1: {finalUrl: 'https://a.example', filters: ['constructor']}}}`:
no filter catalog, and a target that refers to a filter named `constructor`. -/
def inheritedRefConfig : JSVal :=
  obj [("targets", obj [("t1", obj [("finalUrl", str "https://a.example"),
    ("filters", arr [str "constructor"] [])])])]


/-- The vendor catalog has an entry for `vendor` that defines `transport.iframe`: the
catalog is there, the reads `catalog[vendor]`, `catalog[vendor]['transport']` and
`catalog[vendor]['transport']['iframe']` all give a value other than `undefined`. -/
def DefinesIframe (catalog : JSVal) (vendor : String) : Prop :=
  catalog.truthy = true ∧
  ∃ entry transport iframe, catalog.get vendor = .ok entry ∧ entry.isUndefined = false ∧
    entry.get "transport" = .ok transport ∧ transport.isUndefined = false ∧
    transport.get "iframe" = .ok iframe ∧ iframe.isUndefined = false

/-- The vendor catalog has no usable entry for `vendor`: the catalog itself is missing, or
the name is absent from it, or its descriptor has no `transport`, or the descriptor's
`transport` has no `iframe`. -/
def LacksIframe (catalog : JSVal) (vendor : String) : Prop :=
  catalog.truthy = false ∨
  catalog.get vendor = .ok undefined ∨
  (∃ entry, catalog.get vendor = .ok entry ∧ entry.get "transport" = .ok undefined) ∨
  (∃ entry transport, catalog.get vendor = .ok entry ∧
    entry.get "transport" = .ok transport ∧ transport.get "iframe" = .ok undefined)

/-- A vendor catalog with two entries: `known` defines `transport.iframe` (as `null`),
`noIframe` has a `transport` without `iframe`. -/
def sampleCatalog : JSVal :=
  obj [("known", obj [("transport", obj [("iframe", null)])]),
    ("noIframe", obj [("transport", obj [("beacon", bool true)])])]

/-- The variables `{_v: {defaultValue: 'x', vendorAnalyticsSource: 'unknownVendor'}}`. -/
def unknownVendorVars : JSVal :=
  obj [("_v", obj [("defaultValue", str "x"),
    ("vendorAnalyticsSource", str "unknownVendor")])]

/-- The config `{targets: {t1: {finalUrl: 'https://a.example', vars: unknownVendorVars}}}`. -/
def unknownVendorConfig : JSVal :=
  obj [("targets", obj [("t1", obj [("finalUrl", str "https://a.example"),
    ("vars", unknownVendorVars)])])]

/-- The variables `{_v: {vendorAnalyticsSource: 'known', vendorAnalyticsResponseKey: ''}}`. -/
def noResponseKeyVars : JSVal :=
  obj [("_v", obj [("vendorAnalyticsSource", str "known"),
    ("vendorAnalyticsResponseKey", str "")])]

/-- The config `{targets: {t1: {finalUrl: 'https://a.example', vars: noResponseKeyVars}}}`. -/
def noResponseKeyConfig : JSVal :=
  obj [("targets", obj [("t1", obj [("finalUrl", str "https://a.example"),
    ("vars", noResponseKeyVars)])])]

/-- A value that is not an object: `undefined`, `null`, a boolean, a number or a string. -/
def JSVal.isPrimitive : JSVal → Bool
  | .undefined => true
  | .null => true
  | .bool _ => true
  | .num _ => true
  | .str _ => true
  | _ => false

/-- Validation of `config` reaches the target `t`: `config` passes the shape assertion,
the `filters` and `transport` statements pass and leave the config `c₂`, `targets` is an
object (for `typeof`), and the targets enumerated before `t` pass `assertTarget`. -/
def ReachesTarget (ANALYTICS_CONFIG config c₂ : JSVal) (t : String) (target : JSVal) :
    Prop :=
  config.typeOf = "object" ∧
  ∃ (c₁ targets : JSVal) (pre post : List String),
    assertConfigFilters config = .ok c₁ ∧ assertConfigTransport c₁ = .ok c₂ ∧
    c₂.get "targets" = .ok targets ∧ targets.typeOf = "object" ∧
    targets.forInKeys = pre ++ t :: post ∧
    (∀ t' ∈ pre, assertTargetsEntry ANALYTICS_CONFIG targets c₂ t' = .ok ()) ∧
    targets.get t = .ok target

/-- Validation of `target` reaches the variable `varName` of its `vars`: `finalUrl` is a
string, the filter references pass, and the variables enumerated before `varName` pass
their checks. -/
def ReachesVariable (ANALYTICS_CONFIG c₂ target vars : JSVal) (varName : String) : Prop :=
  ∃ (url : String) (filters : JSVal) (pre post : List String),
    target.get "finalUrl" = .ok (str url) ∧
    target.get "filters" = .ok filters ∧ assertTargetFilters c₂ filters = .ok () ∧
    target.get "vars" = .ok vars ∧
    vars.forInKeys = pre ++ varName :: post ∧
    (∀ v ∈ pre, assertVariable ANALYTICS_CONFIG vars v = .ok ())

/-- The target `{finalUrl: 'https://a.example', vars: {_ok: {defaultValue: 'y'},
bad: {defaultValue: 'x'}}}`. -/
def badNameTarget : JSVal :=
  obj [("finalUrl", str "https://a.example"),
    ("vars", obj [("_ok", obj [("defaultValue", str "y")]),
      ("bad", obj [("defaultValue", str "x")])])]

/-- The config `{targets: {t0: {finalUrl: 'u'}, t1: badNameTarget}}`. -/
def badNameConfig : JSVal :=
  obj [("targets", obj [("t0", obj [("finalUrl", str "u")]), ("t1", badNameTarget)])]

/-- The config `{targets: {t1: {finalUrl: 'https://a.example', filters: ['f1']}}}`: no
filter catalog, and a target that refers to the filter `f1`. -/
def undefinedRefConfig : JSVal :=
  obj [("targets", obj [("t1", obj [("finalUrl", str "https://a.example"),
    ("filters", arr [str "f1"] [])])])]

/-- The value a section has after `assertConfig`: the supplied value when it is truthy,
the empty object when it is absent or falsy. -/
def defaulted (v : JSVal) : JSVal :=
  if v.truthy then v else obj []

/-- The config `{targets: {t1: {finalUrl: 'https://a.example'}}}`. -/
def minimalConfig : JSVal :=
  obj [("targets", obj [("t1", obj [("finalUrl", str "https://a.example")])])]

/-- The config `minimalConfig` with `filters: {}` and `transport: {}` filled in. -/
def minimalConfigDefaulted : JSVal :=
  obj [("targets", obj [("t1", obj [("finalUrl", str "https://a.example")])]),
    ("filters", obj []), ("transport", obj [])]

/-! ### Valid configs, in the words of the specification -/

/-- Every entry of the filter catalog is an object with `type` `CLICK_DELAY` or
`CLICK_LOCATION`. -/
def ValidFilterCatalog (catalog : List (String × JSVal)) : Prop :=
  ∀ p ∈ catalog, ∃ fields, p.2 = obj fields ∧
    (fields.lookup "type" = some (str FilterType.CLICK_DELAY) ∨
      fields.lookup "type" = some (str FilterType.CLICK_LOCATION))

/-- Every key of the transport mapping is `beacon` or `image` and every value a boolean. -/
def ValidTransport (transport : List (String × JSVal)) : Prop :=
  ∀ p ∈ transport, (p.1 = "beacon" ∨ p.1 = "image") ∧ ∃ b, p.2 = bool b

/-- The value of a variable is an object that, when `vendorAnalyticsSource` is set, names
a catalog vendor defining `transport.iframe` and has `vendorAnalyticsResponseKey` set. -/
def ValidVariable (ANALYTICS_CONFIG value : JSVal) : Prop :=
  ∃ fields, value = obj fields ∧
    ∀ source, value.get "vendorAnalyticsSource" = .ok source → source.truthy = true →
      ∃ vendor responseKey, source = str vendor ∧ DefinesIframe ANALYTICS_CONFIG vendor ∧
        value.get "vendorAnalyticsResponseKey" = .ok responseKey ∧ responseKey.truthy = true

/-- The target is an object with a string `finalUrl`, whose `filters` list (if present)
names only keys of the filter catalog, and whose `vars` (if present) is an object with
only pattern-conforming keys and valid values. -/
def ValidTarget (ANALYTICS_CONFIG : JSVal) (catalog : List (String × JSVal))
    (target : JSVal) : Prop :=
  ∃ fields, target = obj fields ∧
    (∃ url, fields.lookup "finalUrl" = some (str url)) ∧
    (fields.lookup "filters" = none ∨
      ∃ names : List String, fields.lookup "filters" = some (arr (names.map str) []) ∧
        ∀ n ∈ names, n ∈ catalog.map Prod.fst) ∧
    (fields.lookup "vars" = none ∨
      ∃ vars, fields.lookup "vars" = some (obj vars) ∧
        ∀ q ∈ vars, patternTest q.1 = true ∧ ValidVariable ANALYTICS_CONFIG q.2)

/-- The config is an object whose `filters` is omitted or a valid catalog, whose
`transport` is omitted or a valid transport mapping, and whose `targets` is an object of
valid targets (the catalog being empty when `filters` is omitted). -/
def ValidConfig (ANALYTICS_CONFIG config : JSVal) : Prop :=
  ∃ fields catalog, config = obj fields ∧
    ((fields.lookup "filters" = none ∧ catalog = []) ∨
      (fields.lookup "filters" = some (obj catalog) ∧ ValidFilterCatalog catalog)) ∧
    (fields.lookup "transport" = none ∨
      ∃ transport, fields.lookup "transport" = some (obj transport) ∧
        ValidTransport transport) ∧
    ∃ targets, fields.lookup "targets" = some (obj targets) ∧
      ∀ p ∈ targets, ValidTarget ANALYTICS_CONFIG catalog p.2

/-- The target `{finalUrl: 'https://a.example', filters: ['f1'], vars: {_v: {defaultValue:
'x', vendorAnalyticsSource: 'known', vendorAnalyticsResponseKey: 'k'}}}`. -/
def acceptedTarget : JSVal :=
  obj [("finalUrl", str "https://a.example"), ("filters", arr [str "f1"] []),
    ("vars", obj [("_v", obj [("defaultValue", str "x"),
      ("vendorAnalyticsSource", str "known"), ("vendorAnalyticsResponseKey", str "k")])])]

/-- The config `{filters: {f1: {type: 'CLICK_DELAY', delay: 300}}, targets: {t1:
acceptedTarget}}`. -/
def acceptedConfig : JSVal :=
  obj [("filters", obj [("f1", obj [("type", str "CLICK_DELAY"), ("delay", num 300)])]),
    ("targets", obj [("t1", acceptedTarget)])]

/-! # Theorems -/

/-! ## Loops -/

theorem forEachM_nil {α : Type} (body : α → Except Failure Unit) :
    forEachM body [] = .ok () := rfl

theorem forEachM_cons_ok {α : Type} (body : α → Except Failure Unit) (x : α) (rest : List α)
    (h : body x = .ok ()) : forEachM body (x :: rest) = forEachM body rest := by
  simp [forEachM, h]

theorem forEachM_cons_error {α : Type} (body : α → Except Failure Unit) (x : α)
    (rest : List α) (e : Failure) (h : body x = .error e) :
    forEachM body (x :: rest) = .error e := by
  simp [forEachM, h]

/-- A loop completes exactly when every body does. -/
theorem forEachM_ok_iff {α : Type} (body : α → Except Failure Unit) (xs : List α) :
    forEachM body xs = .ok () ↔ ∀ x ∈ xs, body x = .ok () := by
  induction xs with
  | nil => simp [forEachM]
  | cons x rest ih =>
    cases hx : body x with
    | ok u =>
      cases u
      rw [forEachM_cons_ok body x rest hx, ih]
      simp [hx]
    | error e =>
      rw [forEachM_cons_error body x rest e hx]
      simp [hx]

/-- The bodies that complete at the head of a loop do not change its outcome. -/
theorem forEachM_append_ok {α : Type} (body : α → Except Failure Unit) (pre rest : List α)
    (h : ∀ x ∈ pre, body x = .ok ()) : forEachM body (pre ++ rest) = forEachM body rest := by
  induction pre with
  | nil => rfl
  | cons x pre ih =>
    have hx : body x = .ok () := h x (List.mem_cons_self x pre)
    rw [List.cons_append, forEachM_cons_ok body x _ hx]
    exact ih fun y hy => h y (List.mem_cons_of_mem x hy)

/-- A loop reports the exception of the first body that throws. -/
theorem forEachM_first_error {α : Type} (body : α → Except Failure Unit)
    (pre post : List α) (x : α) (e : Failure)
    (h : ∀ y ∈ pre, body y = .ok ()) (hx : body x = .error e) :
    forEachM body (pre ++ x :: post) = .error e := by
  rw [forEachM_append_ok body pre _ h, forEachM_cons_error body x post e hx]

/-- A loop with a throwing body throws. -/
theorem forEachM_error_of_mem {α : Type} (body : α → Except Failure Unit) (xs : List α)
    (x : α) (e : Failure) (hx : x ∈ xs) (h : body x = .error e) :
    ∃ e', forEachM body xs = .error e' := by
  cases hr : forEachM body xs with
  | error e' => exact ⟨e', rfl⟩
  | ok u =>
    cases u
    have := (forEachM_ok_iff body xs).mp hr x hx
    rw [h] at this
    cases this


/-! ## Filter references (C1) -/

/-- C1 (evaluation at the failing input). The config
`{targets: {t1: {finalUrl: 'https://a.example', filters: ['constructor']}}}` has no
top-level `filters` and a target with a non-empty `filters` list, whose name `constructor`
is not a key of the (empty) filter catalog; `assertConfig` nevertheless returns it (with
the two defaults filled in), because `config.filters['constructor']` reads the inherited
`Object.prototype.constructor`, which is truthy. -/
theorem C1_inherited_name_passes_reference_check (ANALYTICS_CONFIG : JSVal) :
    inheritedRefConfig.get "filters" = .ok undefined ∧
    "constructor" ∉ (obj []).forInKeys ∧
    assertConfig ANALYTICS_CONFIG inheritedRefConfig =
      .ok (obj [("targets", obj [("t1", obj [("finalUrl", str "https://a.example"),
        ("filters", arr [str "constructor"] [])])]),
        ("filters", obj []), ("transport", obj [])]) :=
  ⟨rfl, by simp [forInKeys], rfl⟩

/-! ## Output shape (C2) -/

/-- C2 (evaluation at the failing inputs). `assertConfig` returns `{targets: null}` with
`targets` still `null`, and returns `{filters: true, targets: {}}` with `filters` still
the boolean `true`: the returned value does not always have three objects under
`targets`, `filters` and `transport`. -/
theorem C2_returns_null_targets_and_boolean_filters (ANALYTICS_CONFIG : JSVal) :
    assertConfig ANALYTICS_CONFIG (obj [("targets", null)]) =
      .ok (obj [("targets", null), ("filters", obj []), ("transport", obj [])]) ∧
    assertConfig ANALYTICS_CONFIG (obj [("filters", bool true), ("targets", obj [])]) =
      .ok (obj [("filters", bool true), ("targets", obj []), ("transport", obj [])]) :=
  ⟨rfl, rfl⟩

/-! ## `targets` must be an object (C9) -/

/-- C9 (evaluation at the failing input). `typeof null` is `'object'` and a `for-in`
loop over `null` does not iterate, so `assertTargets(null, config)` returns for every
`config`; hence `assertConfig` does not fail on `{targets: null}`, while it does report
the `targets` error when `targets` is missing, a string, a number or a boolean. -/
theorem C9_null_targets_pass (ANALYTICS_CONFIG : JSVal) :
    (∀ config, assertTargets ANALYTICS_CONFIG null config = .ok ()) ∧
    (∃ out, assertConfig ANALYTICS_CONFIG (obj [("targets", null)]) = .ok out) ∧
    (∀ config, assertTargets ANALYTICS_CONFIG undefined config = .error TargetsNotAnObject) ∧
    (∀ config s, assertTargets ANALYTICS_CONFIG (str s) config = .error TargetsNotAnObject) ∧
    (∀ config n, assertTargets ANALYTICS_CONFIG (num n) config = .error TargetsNotAnObject) ∧
    (∀ config b, assertTargets ANALYTICS_CONFIG (bool b) config = .error TargetsNotAnObject) :=
  ⟨fun _ => rfl, ⟨_, rfl⟩, fun _ => rfl, fun _ _ => rfl, fun _ _ => rfl, fun _ _ => rfl⟩

/-! ## Top-level input shape (C10) -/

/-- C10 (evaluation at the failing input). On `null` the assertion
`typeof config == 'object'` passes and the next statement reads `config.filters`, which
throws a `TypeError`, not the NotAnObject user error; on `undefined`, a string, a number
and a boolean the assertion fails with NotAnObject. -/
theorem C10_null_config_type_error (ANALYTICS_CONFIG : JSVal) :
    assertConfig ANALYTICS_CONFIG null = .error .typeError ∧
    Failure.typeError ≠ NotAnObject ∧
    assertConfig ANALYTICS_CONFIG undefined = .error NotAnObject ∧
    (∀ s, assertConfig ANALYTICS_CONFIG (str s) = .error NotAnObject) ∧
    (∀ n, assertConfig ANALYTICS_CONFIG (num n) = .error NotAnObject) ∧
    (∀ b, assertConfig ANALYTICS_CONFIG (bool b) = .error NotAnObject) :=
  ⟨rfl, by simp [NotAnObject], rfl, fun _ => rfl, fun _ => rfl, fun _ => rfl⟩

/-! ## `finalUrl` (C5) -/

/-- On every target that can be read, of any name, whose `finalUrl` is not a string
(`undefined` when the property is absent), `assertTarget` fails with MissingFinalUrl
naming the target, whatever the target's `filters` and `vars` are and whatever the config
and the vendor catalog are: the check runs first. -/
theorem assertTarget_missing_final_url (ANALYTICS_CONFIG : JSVal) (name : String)
    (target config finalUrl : JSVal) (hread : target.get "finalUrl" = .ok finalUrl)
    (hstring : finalUrl.typeOf ≠ "string") :
    assertTarget ANALYTICS_CONFIG name target config = .error (MissingFinalUrl name) := by
  simp [assertTarget, hread, userAssert, truthy, hstring, MissingFinalUrl, bind, Except.bind]

/-- A target with a numeric `finalUrl`, a reference to an undefined filter and a variable
with a bad name reports MissingFinalUrl. -/
theorem assertTarget_missing_final_url_example :
    (obj [("finalUrl", num 7), ("filters", arr [str "nope"] []),
      ("vars", obj [("bad", obj [])])]).get "finalUrl" = .ok (num 7) ∧
    (num 7).typeOf ≠ "string" ∧
    assertTarget (obj []) "t1" (obj [("finalUrl", num 7), ("filters", arr [str "nope"] []),
      ("vars", obj [("bad", obj [])])]) (obj [("filters", obj [])]) =
      .error (MissingFinalUrl "t1") :=
  ⟨rfl, by decide, assertTarget_missing_final_url (obj []) "t1" _ _ (num 7) rfl (by decide)⟩

/-- C5 (evaluation at the failing input). The target `null`, as in `{targets: {t1: null}}`,
has no string `finalUrl`, and `assertTarget` throws the `TypeError` of the read
`null.finalUrl` instead of MissingFinalUrl: the target is dereferenced before the
assertion. On every other kind of target without a string `finalUrl` the error is
MissingFinalUrl naming the target, raised before `filters` and `vars` are examined: an
object whose `finalUrl` is a number, a boolean or `null`, whatever its other fields are;
an object with no fields; a string, a number or a boolean; and an object with no
`finalUrl`, an undefined filter reference and a bad variable name. -/
theorem C5_null_target_type_error (ANALYTICS_CONFIG : JSVal) :
    (∀ name config, assertTarget ANALYTICS_CONFIG name null config = .error .typeError) ∧
    assertConfig ANALYTICS_CONFIG (obj [("targets", obj [("t1", null)])]) =
      .error .typeError ∧
    (∀ name, Failure.typeError ≠ MissingFinalUrl name) ∧
    (∀ name config n (other : List (String × JSVal)),
      assertTarget ANALYTICS_CONFIG name (obj (("finalUrl", num n) :: other)) config =
        .error (MissingFinalUrl name)) ∧
    (∀ name config b (other : List (String × JSVal)),
      assertTarget ANALYTICS_CONFIG name (obj (("finalUrl", bool b) :: other)) config =
        .error (MissingFinalUrl name)) ∧
    (∀ name config (other : List (String × JSVal)),
      assertTarget ANALYTICS_CONFIG name (obj (("finalUrl", null) :: other)) config =
        .error (MissingFinalUrl name)) ∧
    (∀ name config,
      assertTarget ANALYTICS_CONFIG name (obj []) config = .error (MissingFinalUrl name)) ∧
    (∀ name config s,
      assertTarget ANALYTICS_CONFIG name (str s) config = .error (MissingFinalUrl name)) ∧
    (∀ name config n,
      assertTarget ANALYTICS_CONFIG name (num n) config = .error (MissingFinalUrl name)) ∧
    (∀ name config b,
      assertTarget ANALYTICS_CONFIG name (bool b) config = .error (MissingFinalUrl name)) ∧
    (∀ name config,
      assertTarget ANALYTICS_CONFIG name (obj [("filters", arr [str "nope"] []),
        ("vars", obj [("bad", obj [])])]) config = .error (MissingFinalUrl name)) :=
  ⟨fun _ _ => rfl, rfl, fun _ => by simp [MissingFinalUrl], fun _ _ _ _ => rfl,
    fun _ _ _ _ => rfl, fun _ _ _ => rfl, fun _ _ => rfl, fun _ _ _ => rfl,
    fun _ _ _ => rfl, fun _ _ _ => rfl, fun _ _ => rfl⟩

/-! ## Reading properties -/

/-- A value with a key to enumerate can be read at every key. -/
theorem get_ok_of_mem_forInKeys (v : JSVal) (t k : String) (h : t ∈ v.forInKeys) :
    ∃ x, v.get k = .ok x := by
  cases v with
  | undefined => simp [forInKeys] at h
  | null => simp [forInKeys] at h
  | bool b => simp [forInKeys] at h
  | num n => simp [forInKeys] at h
  | builtin n => simp [forInKeys] at h
  | obj props =>
    simp only [JSVal.get]
    split <;> exact ⟨_, rfl⟩
  | arr items named =>
    simp only [JSVal.get]
    split
    · exact ⟨_, rfl⟩
    · split <;> exact ⟨_, rfl⟩
  | str s =>
    simp only [JSVal.get]
    split
    · split <;> exact ⟨_, rfl⟩
    · exact ⟨_, rfl⟩

/-- The type of a value is `'boolean'` exactly when it is a boolean. -/
theorem typeOf_eq_boolean_iff (v : JSVal) : v.typeOf = "boolean" ↔ ∃ b, v = bool b := by
  cases v <;> simp [typeOf]

/-! ## Transport (C8) -/

theorem assertTransportEntry_ok_iff (transport : JSVal) (t : String) :
    assertTransportEntry transport t = .ok () ↔ ValidTransportEntry transport t := by
  unfold assertTransportEntry ValidTransportEntry
  by_cases hk : t = "beacon" ∨ t = "image"
  · cases hg : transport.get t with
    | error e =>
      simp [userAssert, truthy, TransportMode.BEACON, TransportMode.IMAGE, hk, bind,
        Except.bind]
    | ok v =>
      have hb := typeOf_eq_boolean_iff v
      by_cases hv : v.typeOf = "boolean"
      · obtain ⟨b, rfl⟩ := hb.mp hv
        simp [userAssert, truthy, TransportMode.BEACON, TransportMode.IMAGE, hk, bind,
          Except.bind, typeOf]
      · have hne : ¬ ∃ b, v = bool b := fun h => hv (hb.mpr h)
        simp only [not_exists] at hne
        simp [userAssert, truthy, TransportMode.BEACON, TransportMode.IMAGE, hk, bind,
          Except.bind, hv, hne]
  · simp [userAssert, truthy, TransportMode.BEACON, TransportMode.IMAGE, hk, bind,
      Except.bind]

theorem assertTransportEntry_bad_key (transport : JSVal) (t : String)
    (hk : ¬ (t = "beacon" ∨ t = "image")) :
    assertTransportEntry transport t = .error (UnknownTransportMode t) := by
  simp [assertTransportEntry, userAssert, truthy, TransportMode.BEACON, TransportMode.IMAGE,
    hk, bind, Except.bind, UnknownTransportMode]

theorem assertTransportEntry_bad_value (transport : JSVal) (t : String) (v : JSVal)
    (hk : t = "beacon" ∨ t = "image") (hg : transport.get t = .ok v)
    (hv : v.typeOf ≠ "boolean") :
    assertTransportEntry transport t = .error InvalidTransportValue := by
  simp [assertTransportEntry, userAssert, truthy, TransportMode.BEACON, TransportMode.IMAGE,
    hk, bind, Except.bind, InvalidTransportValue, hg, hv]


/-- In a property list with distinct keys, a read finds exactly the entries of the list. -/
theorem lookup_eq_some_iff_mem (ps : List (String × JSVal)) (k : String) (v : JSVal)
    (hn : (ps.map Prod.fst).Nodup) : ps.lookup k = some v ↔ (k, v) ∈ ps := by
  induction ps with
  | nil => simp
  | cons p rest ih =>
    obtain ⟨k', v'⟩ := p
    simp only [List.map_cons, List.nodup_cons] at hn
    by_cases hk : k = k'
    · subst hk
      have hnot : (k, v) ∉ rest := fun hmem =>
        hn.1 (List.mem_map.mpr ⟨(k, v), hmem, rfl⟩)
      simp only [List.lookup_cons_self, Option.some.injEq, List.mem_cons, Prod.mk.injEq,
        true_and, hnot, or_false]
      exact eq_comm
    · have hb : (k == k') = false := by simpa using hk
      simp only [List.lookup_cons, hb, List.mem_cons, Prod.mk.injEq, hk, false_and, false_or]
      exact ih hn.2

/-- Reordering the entries of a property list with distinct keys does not change a read. -/
theorem lookup_perm (ps qs : List (String × JSVal)) (k : String) (hp : ps.Perm qs)
    (hn : (ps.map Prod.fst).Nodup) : ps.lookup k = qs.lookup k := by
  have hn' : (qs.map Prod.fst).Nodup := (hp.map Prod.fst).nodup_iff.mp hn
  cases h : qs.lookup k with
  | some v =>
    exact (lookup_eq_some_iff_mem ps k v hn).mpr
      (hp.mem_iff.mpr ((lookup_eq_some_iff_mem qs k v hn').mp h))
  | none =>
    cases h' : ps.lookup k with
    | none => rfl
    | some v =>
      have := (lookup_eq_some_iff_mem qs k v hn').mpr
        (hp.mem_iff.mp ((lookup_eq_some_iff_mem ps k v hn).mp h'))
      rw [h] at this
      cases this

/-- What an object inherits does not depend on its own properties. -/
theorem hidden_obj (props : List (String × JSVal)) (k : String) :
    (obj props).hidden k =
      if k == "__proto__" then obj []
      else if objectPrototype.contains k then builtin k else undefined := by
  unfold JSVal.hidden
  split <;> simp_all [inheritedNames]

/-- C8 (as amended). For every transport value: `assertTransport` succeeds if and only
if every enumerated key is `beacon` or `image` and has a boolean value; when it fails, the
error is that of the first offending entry in enumeration order, UnknownTransportMode
naming the key when the key is not `beacon` or `image` and InvalidTransportValue when the
key is one of the two and the value is not a boolean; and for two mappings with the same
entries in a different order (keys distinct) one succeeds exactly when the other does. -/
theorem C8_transport_validation (transport : JSVal) :
    (assertTransport transport = .ok () ↔
      ∀ t ∈ transport.forInKeys, ValidTransportEntry transport t) ∧
    (∀ (pre post : List String) (t : String),
      transport.forInKeys = pre ++ t :: post →
      (∀ t' ∈ pre, ValidTransportEntry transport t') →
      ¬ ValidTransportEntry transport t →
      assertTransport transport =
        .error (if t = "beacon" ∨ t = "image" then InvalidTransportValue
          else UnknownTransportMode t)) ∧
    (∀ props props' : List (String × JSVal),
      transport = obj props → props.Perm props' → (props.map Prod.fst).Nodup →
      (assertTransport (obj props) = .ok () ↔ assertTransport (obj props') = .ok ())) := by
  refine ⟨?_, ?_, ?_⟩
  · unfold assertTransport
    rw [forEachM_ok_iff]
    exact forall₂_congr fun t _ => assertTransportEntry_ok_iff transport t
  · intro pre post t hkeys hpre ht
    unfold assertTransport
    rw [hkeys]
    apply forEachM_first_error
    · exact fun t' h' => (assertTransportEntry_ok_iff transport t').mpr (hpre t' h')
    · by_cases hk : t = "beacon" ∨ t = "image"
      · rw [if_pos hk]
        have hmem : t ∈ transport.forInKeys := by rw [hkeys]; simp
        obtain ⟨v, hv⟩ := get_ok_of_mem_forInKeys transport t t hmem
        apply assertTransportEntry_bad_value transport t v hk hv
        intro hb
        obtain ⟨b, rfl⟩ := (typeOf_eq_boolean_iff v).mp hb
        exact ht ⟨hk, b, hv⟩
      · rw [if_neg hk]
        exact assertTransportEntry_bad_key transport t hk
  · intro props props' _ hp hn
    unfold assertTransport
    rw [forEachM_ok_iff, forEachM_ok_iff]
    have hget : ∀ t, (obj props).get t = (obj props').get t := by
      intro t
      simp only [JSVal.get, lookup_perm props props' t hp hn, hidden_obj props,
        hidden_obj props']
    have hentry : ∀ t, assertTransportEntry (obj props) t = assertTransportEntry (obj props') t := by
      intro t
      simp only [assertTransportEntry, hget t]
    have hkeys : ∀ t, t ∈ (obj props).forInKeys ↔ t ∈ (obj props').forInKeys := by
      intro t
      simp only [forInKeys]
      exact (hp.map Prod.fst).mem_iff
    constructor
    · intro h t ht
      rw [← hentry t]
      exact h t ((hkeys t).mpr ht)
    · intro h t ht
      rw [hentry t]
      exact h t ((hkeys t).mp ht)

/-- The transport `{beacon: 'yes', x: true}` has the key `x`, which is neither `beacon`
nor `image`, and yet `assertTransport` fails with InvalidTransportValue, raised for
`beacon`, which is enumerated first; the error is not UnknownTransportMode. -/
theorem C8_counterexample :
    "x" ∈ (obj [("beacon", str "yes"), ("x", bool true)]).forInKeys ∧
    ¬ ("x" = "beacon" ∨ "x" = "image") ∧
    assertTransport (obj [("beacon", str "yes"), ("x", bool true)]) =
      .error InvalidTransportValue ∧
    assertTransport (obj [("beacon", str "yes"), ("x", bool true)]) ≠
      .error (UnknownTransportMode "x") := by
  refine ⟨by simp [forInKeys], by decide, rfl, ?_⟩
  have h : assertTransport (obj [("beacon", str "yes"), ("x", bool true)]) =
      .error InvalidTransportValue := rfl
  rw [h]
  simp [InvalidTransportValue, UnknownTransportMode]


/-- The transport `{beacon: true, bogus: false}` fails with UnknownTransportMode naming
`bogus`, its first offending entry, and `{beacon: true, image: false}` validates exactly
when `{image: false, beacon: true}` does. -/
theorem C8_transport_validation_witness :
    assertTransport (obj [("beacon", bool true), ("bogus", bool false)]) =
      .error (UnknownTransportMode "bogus") ∧
    (assertTransport (obj [("beacon", bool true), ("image", bool false)]) = .ok () ↔
      assertTransport (obj [("image", bool false), ("beacon", bool true)]) = .ok ()) := by
  constructor
  · have h := (C8_transport_validation (obj [("beacon", bool true), ("bogus", bool false)])).2.1
      ["beacon"] [] "bogus" rfl
      (by
        intro t' ht'
        simp only [List.mem_singleton] at ht'
        subst ht'
        exact ⟨Or.inl rfl, true, rfl⟩)
      (fun hv => absurd hv.1 (by decide))
    rw [if_neg (by decide)] at h
    exact h
  · exact (C8_transport_validation (obj [("beacon", bool true), ("image", bool false)])).2.2
      [("beacon", bool true), ("image", bool false)]
      [("image", bool false), ("beacon", bool true)] rfl
      (List.Perm.swap _ _ _) (by decide)

/-! ## The vendor catalog -/

theorem isUndefined_eq_true_iff (v : JSVal) : v.isUndefined = true ↔ v = undefined := by
  cases v <;> simp [isUndefined]

/-- The function `assertVendor` returns exactly when the catalog defines `transport.iframe`
for the vendor. -/
theorem assertVendor_ok_iff (A : JSVal) (vendor : String) :
    assertVendor A (str vendor) = .ok () ↔ DefinesIframe A vendor := by
  unfold assertVendor DefinesIframe
  cases hA : A.truthy with
  | false => simp [userAssert, hA, toKey, toStr, bind, Except.bind, pure, Except.pure]
  | true =>
    cases hg : A.get vendor with
    | error e => simp [toKey, toStr, bind, Except.bind, pure, Except.pure, hg]
    | ok entry =>
      cases hu : entry.isUndefined with
      | true =>
        simp [userAssert, truthy, toKey, toStr, bind, Except.bind, pure, Except.pure, hg, hu]
      | false =>
        cases ht : entry.get "transport" with
        | error e => simp [toKey, toStr, bind, Except.bind, pure, Except.pure, hg, hu, ht]
        | ok transport =>
          cases hut : transport.isUndefined with
          | true =>
            simp [userAssert, truthy, toKey, toStr, bind, Except.bind, pure, Except.pure,
              hg, hu, ht, hut]
          | false =>
            cases hi : transport.get "iframe" with
            | error e =>
              simp [toKey, toStr, bind, Except.bind, pure, Except.pure, hg, hu, ht, hut, hi]
            | ok iframe =>
              cases hui : iframe.isUndefined <;>
                simp [userAssert, truthy, toKey, toStr, bind, Except.bind, pure, Except.pure,
                  hg, hu, ht, hut, hi, hui]

/-- The function `assertVendor` raises UnknownVendor, naming the vendor, when the catalog
has no usable entry for it. -/
theorem assertVendor_lacks (A : JSVal) (vendor : String) (h : LacksIframe A vendor) :
    assertVendor A (str vendor) = .error (UnknownVendor vendor) := by
  unfold assertVendor UnknownVendor
  cases hA : A.truthy with
  | false => simp [userAssert, hA, toKey, toStr, bind, Except.bind, pure, Except.pure]
  | true =>
    rcases h with h | h | ⟨entry, hg, ht⟩ | ⟨entry, transport, hg, ht, hi⟩
    · rw [hA] at h
      cases h
    · simp [userAssert, truthy, toKey, toStr, bind, Except.bind, pure, Except.pure, h,
        isUndefined]
    · cases hu : entry.isUndefined <;>
        simp [userAssert, truthy, toKey, toStr, bind, Except.bind, pure, Except.pure, hg, ht,
          hu, isUndefined]
    · cases hu : entry.isUndefined <;> cases hut : transport.isUndefined <;>
        simp [userAssert, truthy, toKey, toStr, bind, Except.bind, pure, Except.pure, hg, ht,
          hi, hu, hut, isUndefined]

theorem truthy_str (s : String) : (str s).truthy = true ↔ s ≠ "" := by
  simp [truthy]

theorem truthy_bool (b : Bool) : (bool b).truthy = b := rfl

/-- A name that is not an own key of a catalog object has no usable entry in it: the read
gives `undefined`, or an inherited built-in, which has no `transport`. -/
theorem lacksIframe_of_not_key (props : List (String × JSVal)) (vendor : String)
    (h : vendor ∉ props.map Prod.fst) : LacksIframe (obj props) vendor := by
  have hl : props.lookup vendor = none := by
    cases hl : props.lookup vendor with
    | none => rfl
    | some v =>
      exfalso
      apply h
      have := List.lookup_eq_findSome? props vendor
      rw [hl] at this
      obtain ⟨p, hp, hpv⟩ := List.exists_of_findSome?_eq_some this.symm
      refine List.mem_map.mpr ⟨p, hp, ?_⟩
      by_cases hk : vendor == p.1
      · exact (beq_iff_eq.mp hk).symm
      · simp [hk] at hpv
  have hget : (obj props).get vendor = .ok ((obj props).hidden vendor) := by
    simp [JSVal.get, hl]
  rw [hidden_obj] at hget
  by_cases h1 : (vendor == "__proto__") = true
  · rw [if_pos h1] at hget
    exact Or.inr (Or.inr (Or.inl ⟨obj [], hget, rfl⟩))
  · rw [if_neg h1] at hget
    by_cases h2 : objectPrototype.contains vendor = true
    · rw [if_pos h2] at hget
      refine Or.inr (Or.inr (Or.inl ⟨builtin vendor, hget, ?_⟩))
      simp [JSVal.get, JSVal.hidden, inheritedNames, functionPrototype, objectPrototype]
    · rw [if_neg h2] at hget
      exact Or.inr (Or.inl hget)

/-! ## Assignment and reads -/

theorem lookup_assign_ne (ps : List (String × JSVal)) (k k' : String) (x : JSVal)
    (h : k' ≠ k) : (assign k x ps).lookup k' = ps.lookup k' := by
  induction ps with
  | nil =>
    have hb : (k' == k) = false := by simpa using h
    simp [assign, List.lookup, hb]
  | cons p rest ih =>
    obtain ⟨k₀, y⟩ := p
    by_cases h0 : k₀ = k
    · subst h0
      have hb : (k' == k₀) = false := by simpa using h
      simp [assign, List.lookup, hb]
    · have hb : (k₀ == k) = false := by simpa using h0
      simp [assign, hb, List.lookup_cons, ih]

theorem lookup_assign_same (ps : List (String × JSVal)) (k : String) (x : JSVal) :
    (assign k x ps).lookup k = some x := by
  induction ps with
  | nil => simp [assign]
  | cons p rest ih =>
    obtain ⟨k₀, y⟩ := p
    by_cases h0 : k₀ = k
    · subst h0
      simp [assign]
    · have hb : (k₀ == k) = false := by simpa using h0
      have hb' : (k == k₀) = false := by simpa using fun h => h0 h.symm
      simp [assign, hb, List.lookup_cons, hb', ih]

/-- What an array inherits does not depend on its named properties. -/
theorem hidden_arr (items : List JSVal) (named named' : List (String × JSVal)) (k : String) :
    (arr items named).hidden k = (arr items named').hidden k := by
  unfold JSVal.hidden
  cases k == "length" <;> simp [inheritedNames]

/-- An assignment does not change the read of another property. -/
theorem get_set_ne (c c' x : JSVal) (k k' : String) (hs : c.set k x = .ok c') (h : k' ≠ k) :
    c'.get k' = c.get k' := by
  cases c with
  | obj props =>
    simp only [JSVal.set, Except.ok.injEq] at hs
    subst hs
    simp only [JSVal.get, lookup_assign_ne props k k' x h, hidden_obj]
  | arr items named =>
    simp only [JSVal.set, Except.ok.injEq] at hs
    subst hs
    simp only [JSVal.get, lookup_assign_ne named k k' x h,
      hidden_arr items (assign k x named) named]
  | undefined => simp [JSVal.set] at hs
  | null => simp [JSVal.set] at hs
  | bool b => simp [JSVal.set] at hs
  | num n => simp [JSVal.set] at hs
  | str s => simp [JSVal.set] at hs
  | builtin n => simp [JSVal.set] at hs

/-- After the assignment of a named property, its read gives the assigned value. -/
theorem get_set_same (c c' x : JSVal) (k : String) (hs : c.set k x = .ok c')
    (hk : parseIndex k = none) : c'.get k = .ok x := by
  cases c with
  | obj props =>
    simp only [JSVal.set, Except.ok.injEq] at hs
    subst hs
    simp only [JSVal.get, lookup_assign_same]
  | arr items named =>
    simp only [JSVal.set, Except.ok.injEq] at hs
    subst hs
    simp only [JSVal.get, hk, lookup_assign_same]
  | undefined => simp [JSVal.set] at hs
  | null => simp [JSVal.set] at hs
  | bool b => simp [JSVal.set] at hs
  | num n => simp [JSVal.set] at hs
  | str s => simp [JSVal.set] at hs
  | builtin n => simp [JSVal.set] at hs

/-- An assignment keeps the type of the object. -/
theorem typeOf_set (c c' x : JSVal) (k : String) (hs : c.set k x = .ok c') :
    c'.typeOf = c.typeOf := by
  cases c <;> simp [JSVal.set] at hs <;> subst hs <;> rfl

/-- An inherited or hidden property has nothing to enumerate. -/
theorem forInKeys_hidden (v : JSVal) (k : String) : (v.hidden k).forInKeys = [] := by
  unfold JSVal.hidden
  split
  · rfl
  · rfl
  · split
    · rfl
    · split <;> rfl

/-- A value whose named property has something to enumerate is an object or an array. -/
theorem typeOf_object_of_get (c f : JSVal) (k n : String) (hk : parseIndex k = none)
    (hg : c.get k = .ok f) (hn : n ∈ f.forInKeys) : c.typeOf = "object" := by
  cases c with
  | obj props => rfl
  | arr items named => rfl
  | undefined => simp [JSVal.get] at hg
  | null => rfl
  | bool b =>
    simp only [JSVal.get, Except.ok.injEq] at hg
    rw [← hg, forInKeys_hidden] at hn
    cases hn
  | num m =>
    simp only [JSVal.get, Except.ok.injEq] at hg
    rw [← hg, forInKeys_hidden] at hn
    cases hn
  | builtin m =>
    simp only [JSVal.get, Except.ok.injEq] at hg
    rw [← hg, forInKeys_hidden] at hn
    cases hn
  | str s =>
    simp only [JSVal.get, hk, Except.ok.injEq] at hg
    rw [← hg, forInKeys_hidden] at hn
    cases hn

/-- A value with something to enumerate is truthy. -/
theorem truthy_of_mem_forInKeys (v : JSVal) (n : String) (hn : n ∈ v.forInKeys) :
    v.truthy = true := by
  cases v with
  | obj props => rfl
  | arr items named => rfl
  | builtin m => rfl
  | undefined => simp [forInKeys] at hn
  | null => simp [forInKeys] at hn
  | bool b => simp [forInKeys] at hn
  | num m => simp [forInKeys] at hn
  | str s =>
    simp only [truthy, bne_iff_ne, ne_eq]
    intro hs
    subst hs
    simp [forInKeys, indexKeys] at hn

/-! ## The stages of `assertConfig` -/

/-- The outcome of `assertConfig` once its two defaulting statements have passed. -/
theorem assertConfig_of_sections (A config c₁ c₂ targets : JSVal)
    (h : config.typeOf = "object") (hF : assertConfigFilters config = .ok c₁)
    (hT : assertConfigTransport c₁ = .ok c₂) (hg : c₂.get "targets" = .ok targets) :
    assertConfig A config =
      match assertTargets A targets c₂ with
      | .ok _ => .ok c₂
      | .error e => .error e := by
  simp only [assertConfig, userAssert, h, truthy_bool, beq_self_eq_true, if_true, hF, hT, hg,
    bind, Except.bind, pure, Except.pure]
  cases assertTargets A targets c₂ <;> rfl

/-- A failure of the `filters` statement is the failure of `assertConfig`. -/
theorem assertConfig_of_filters_error (A config : JSVal) (e : Failure)
    (h : config.typeOf = "object") (hF : assertConfigFilters config = .error e) :
    assertConfig A config = .error e := by
  simp only [assertConfig, userAssert, h, truthy_bool, beq_self_eq_true, if_true, hF,
    bind, Except.bind]

/-- A failure of the `transport` statement is the failure of `assertConfig`. -/
theorem assertConfig_of_transport_error (A config c₁ : JSVal) (e : Failure)
    (h : config.typeOf = "object") (hF : assertConfigFilters config = .ok c₁)
    (hT : assertConfigTransport c₁ = .error e) : assertConfig A config = .error e := by
  simp only [assertConfig, userAssert, h, truthy_bool, beq_self_eq_true, if_true, hF, hT,
    bind, Except.bind]

/-- A value that is not of type `'object'` is rejected. -/
theorem assertConfig_of_not_object (A config : JSVal) (h : config.typeOf ≠ "object") :
    assertConfig A config = .error NotAnObject := by
  simp [assertConfig, userAssert, h, truthy_bool, bind, Except.bind, NotAnObject]

/-- A failure of `assertFilters` on a truthy `filters` is the failure of the statement. -/
theorem assertConfigFilters_of_error (config f : JSVal) (e : Failure)
    (hg : config.get "filters" = .ok f) (ht : f.truthy = true)
    (hf : assertFilters f = .error e) : assertConfigFilters config = .error e := by
  simp [assertConfigFilters, hg, ht, hf, bind, Except.bind]

/-- The `filters` statement does not change the read of another property. -/
theorem assertConfigFilters_get (config c₁ : JSVal) (k : String)
    (h : assertConfigFilters config = .ok c₁) (hk : k ≠ "filters") :
    c₁.get k = config.get k := by
  unfold assertConfigFilters at h
  cases hg : config.get "filters" with
  | error e => simp [hg, bind, Except.bind] at h
  | ok f =>
    cases ht : f.truthy with
    | true =>
      cases hf : assertFilters f with
      | error e => simp [hg, ht, hf, bind, Except.bind] at h
      | ok u =>
        simp [hg, ht, hf, bind, Except.bind, pure, Except.pure] at h
        rw [h]
    | false =>
      simp only [hg, ht, bind, Except.bind, Bool.false_eq_true, if_false] at h
      exact get_set_ne config c₁ _ "filters" k h hk

/-- The `transport` statement does not change the read of another property. -/
theorem assertConfigTransport_get (config c₁ : JSVal) (k : String)
    (h : assertConfigTransport config = .ok c₁) (hk : k ≠ "transport") :
    c₁.get k = config.get k := by
  unfold assertConfigTransport at h
  cases hg : config.get "transport" with
  | error e => simp [hg, bind, Except.bind] at h
  | ok f =>
    cases ht : f.truthy with
    | true =>
      cases hf : assertTransport f with
      | error e => simp [hg, ht, hf, bind, Except.bind] at h
      | ok u =>
        simp [hg, ht, hf, bind, Except.bind, pure, Except.pure] at h
        rw [h]
    | false =>
      simp only [hg, ht, bind, Except.bind, Bool.false_eq_true, if_false] at h
      exact get_set_ne config c₁ _ "transport" k h hk

/-! ## Filter types (C4) -/

/-- A primitive `type` other than the two tags is loosely equal to neither. -/
theorem looseEqTag_primitive (ty : JSVal) (tag : String) (hp : ty.isPrimitive = true)
    (hne : ty ≠ str tag) : ty.looseEqTag tag = .ok false := by
  cases ty with
  | str s =>
    have : s ≠ tag := fun h => hne (by rw [h])
    simp [looseEqTag, this]
  | undefined => rfl
  | null => rfl
  | bool b => rfl
  | num n => rfl
  | arr items named => simp [isPrimitive] at hp
  | obj props => simp [isPrimitive] at hp
  | builtin n => simp [isPrimitive] at hp

/-- The check of an entry that is an object with an unsupported primitive `type`. -/
theorem assertFilter_unsupported (filters entry ty : JSVal) (name : String)
    (he : filters.get name = .ok entry) (ho : entry.typeOf = "object")
    (ht : entry.get "type" = .ok ty) (hp : ty.isPrimitive = true)
    (h₁ : ty ≠ str FilterType.CLICK_DELAY) (h₂ : ty ≠ str FilterType.CLICK_LOCATION) :
    assertFilter filters name = .error UnsupportedFilterType := by
  simp [assertFilter, he, ho, ht, userAssert, truthy_bool, bind, Except.bind, pure,
    Except.pure, looseEqTag_primitive ty _ hp h₁, looseEqTag_primitive ty _ hp h₂,
    UnsupportedFilterType]

/-- C4 (as amended). For every config whose `filters` catalog contains an entry that is
an object whose `type` is absent or is a primitive value other than `CLICK_DELAY` and
`CLICK_LOCATION`: validation fails, whatever the entry's other fields and every other part
of the config are, and the error reported is UnsupportedFilterType when the entries
enumerated before that entry pass their checks. -/
theorem C4_unsupported_filter_type (ANALYTICS_CONFIG config filters entry type : JSVal)
    (name : String) (hfilters : config.get "filters" = .ok filters)
    (hname : name ∈ filters.forInKeys) (hentry : filters.get name = .ok entry)
    (hobject : entry.typeOf = "object") (htype : entry.get "type" = .ok type)
    (hprimitive : type.isPrimitive = true)
    (hdelay : type ≠ str FilterType.CLICK_DELAY)
    (hlocation : type ≠ str FilterType.CLICK_LOCATION) :
    (∃ e, assertConfig ANALYTICS_CONFIG config = .error e) ∧
    (∀ pre post : List String, filters.forInKeys = pre ++ name :: post →
      (∀ n ∈ pre, assertFilter filters n = .ok ()) →
      assertConfig ANALYTICS_CONFIG config = .error UnsupportedFilterType) := by
  have hto : config.typeOf = "object" :=
    typeOf_object_of_get config filters "filters" name (by decide) hfilters hname
  have htruthy : filters.truthy = true := truthy_of_mem_forInKeys filters name hname
  have hbody := assertFilter_unsupported filters entry type name hentry hobject htype
    hprimitive hdelay hlocation
  constructor
  · obtain ⟨e, he⟩ := forEachM_error_of_mem (assertFilter filters) filters.forInKeys name _
      hname hbody
    exact ⟨e, assertConfig_of_filters_error _ config e hto
      (assertConfigFilters_of_error config filters e hfilters htruthy he)⟩
  · intro pre post hkeys hpre
    apply assertConfig_of_filters_error _ config _ hto
    apply assertConfigFilters_of_error config filters _ hfilters htruthy
    unfold assertFilters
    rw [hkeys]
    exact forEachM_first_error _ pre post name _ hpre hbody

/-- The catalog `{a: 'x', b: {type: 'bogus'}}` contains the entry `b`, an object whose
`type` is neither `CLICK_DELAY` nor `CLICK_LOCATION`, and `assertConfig` fails with
MalformedFilter naming `a`, not with UnsupportedFilterType. -/
theorem C4_counterexample :
    (obj [("a", str "x"), ("b", obj [("type", str "bogus")])]).get "b" =
      .ok (obj [("type", str "bogus")]) ∧
    assertConfig (obj []) (obj [("filters", obj [("a", str "x"),
      ("b", obj [("type", str "bogus")])]), ("targets", obj [])]) =
      .error (MalformedFilter "a") ∧
    assertConfig (obj []) (obj [("filters", obj [("a", str "x"),
      ("b", obj [("type", str "bogus")])]), ("targets", obj [])]) ≠
      .error UnsupportedFilterType := by
  refine ⟨rfl, rfl, ?_⟩
  have h : assertConfig (obj []) (obj [("filters", obj [("a", str "x"),
      ("b", obj [("type", str "bogus")])]), ("targets", obj [])]) =
      .error (MalformedFilter "a") := rfl
  rw [h]
  simp [MalformedFilter, UnsupportedFilterType]

/-- The config `{filters: {ok: {type: 'CLICK_DELAY'}, f: {type: 'bogus', delay: 1}}}`
(no `targets`) fails with UnsupportedFilterType. -/
theorem C4_unsupported_filter_type_witness :
    assertConfig (obj []) (obj [("filters", obj [("ok", obj [("type", str "CLICK_DELAY")]),
      ("f", obj [("type", str "bogus"), ("delay", num 1)])])]) =
      .error UnsupportedFilterType :=
  (C4_unsupported_filter_type (obj [])
    (obj [("filters", obj [("ok", obj [("type", str "CLICK_DELAY")]),
      ("f", obj [("type", str "bogus"), ("delay", num 1)])])])
    (obj [("ok", obj [("type", str "CLICK_DELAY")]),
      ("f", obj [("type", str "bogus"), ("delay", num 1)])])
    (obj [("type", str "bogus"), ("delay", num 1)]) (str "bogus") "f"
    rfl (by simp [forInKeys]) rfl rfl rfl rfl
    (by simp [FilterType.CLICK_DELAY]) (by simp [FilterType.CLICK_LOCATION])).2
    ["ok"] [] rfl
    (by
      intro n hn
      simp only [List.mem_singleton] at hn
      subst hn
      rfl)

/-! ## Reaching a target and a variable -/

/-- A value that can be read at one key can be read at every key. -/
theorem get_ok_of_get_ok (v x : JSVal) (k k' : String) (h : v.get k = .ok x) :
    ∃ y, v.get k' = .ok y := by
  cases v with
  | undefined => simp [JSVal.get] at h
  | null => simp [JSVal.get] at h
  | bool b => exact ⟨_, rfl⟩
  | num n => exact ⟨_, rfl⟩
  | builtin n => exact ⟨_, rfl⟩
  | obj props =>
    simp only [JSVal.get]
    split <;> exact ⟨_, rfl⟩
  | arr items named =>
    simp only [JSVal.get]
    split
    · exact ⟨_, rfl⟩
    · split <;> exact ⟨_, rfl⟩
  | str s =>
    simp only [JSVal.get]
    split
    · split <;> exact ⟨_, rfl⟩
    · exact ⟨_, rfl⟩

/-- The function `assertTargets` on a value of type `'object'` is its loop. -/
theorem assertTargets_of_object (A targets config : JSVal) (h : targets.typeOf = "object") :
    assertTargets A targets config =
      forEachM (assertTargetsEntry A targets config) targets.forInKeys := by
  simp [assertTargets, userAssert, h, truthy_bool, bind, Except.bind]

/-- When validation reaches a target, a failure of `assertTarget` on it is the failure of
`assertConfig`. -/
theorem assertConfig_of_reaches_target (A config c₂ target : JSVal) (t : String)
    (e : Failure) (hr : ReachesTarget A config c₂ t target)
    (he : assertTarget A t target c₂ = .error e) : assertConfig A config = .error e := by
  obtain ⟨hto, c₁, targets, pre, post, hF, hT, hg, hobj, hkeys, hpre, hget⟩ := hr
  rw [assertConfig_of_sections A config c₁ c₂ targets hto hF hT hg,
    assertTargets_of_object A targets c₂ hobj, hkeys]
  have hbody : assertTargetsEntry A targets c₂ t = .error e := by
    simp [assertTargetsEntry, hget, he, bind, Except.bind]
  rw [forEachM_first_error _ pre post t e hpre hbody]

/-- When validation of a target reaches a variable, a failure of the check of the variable
is the failure of `assertTarget`. -/
theorem assertTarget_of_reaches_variable (A c₂ target vars : JSVal) (t varName : String)
    (e : Failure) (hr : ReachesVariable A c₂ target vars varName)
    (he : assertVariable A vars varName = .error e) :
    assertTarget A t target c₂ = .error e := by
  obtain ⟨url, filters, pre, post, hurl, hfl, hrefs, hvars, hkeys, hpre⟩ := hr
  have hmem : varName ∈ vars.forInKeys := by rw [hkeys]; simp
  have htruthy := truthy_of_mem_forInKeys vars varName hmem
  simp only [assertTarget, hurl, hfl, hrefs, hvars, userAssert, typeOf, truthy_bool,
    beq_self_eq_true, if_true, bind, Except.bind, assertTargetVars, htruthy, hkeys]
  exact forEachM_first_error _ pre post varName e hpre he

/-! ## Variable names (C3) -/

/-- The check of a variable whose name does not match the pattern. -/
theorem assertVariable_bad_name (A vars : JSVal) (varName : String)
    (h : patternTest varName = false) :
    assertVariable A vars varName = .error (InvalidVariableName varName) := by
  simp [assertVariable, userAssert, h, truthy_bool, bind, Except.bind, InvalidVariableName]

/-- A target with a variable whose name does not match the pattern fails `assertTarget`. -/
theorem assertTarget_error_of_bad_name (A target vars config : JSVal) (t varName : String)
    (hvars : target.get "vars" = .ok vars) (hname : varName ∈ vars.forInKeys)
    (hp : patternTest varName = false) : ∃ e, assertTarget A t target config = .error e := by
  obtain ⟨u, hu⟩ := get_ok_of_get_ok target vars "vars" "finalUrl" hvars
  obtain ⟨fl, hfl⟩ := get_ok_of_get_ok target vars "vars" "filters" hvars
  have htruthy := truthy_of_mem_forInKeys vars varName hname
  obtain ⟨e, he⟩ := forEachM_error_of_mem (assertVariable A vars) vars.forInKeys varName _
    hname (assertVariable_bad_name A vars varName hp)
  simp only [assertTarget, hu, hfl, hvars, bind, Except.bind, assertTargetVars, htruthy,
    if_true, he]
  cases userAssert (bool (u.typeOf == "string"))
      (some "finalUrl of target '%s' must be a string") [str t] with
  | error e' => exact ⟨e', rfl⟩
  | ok _ =>
    cases assertTargetFilters config fl with
    | error e' => exact ⟨e', rfl⟩
    | ok _ => exact ⟨e, rfl⟩

/-- A failing target makes `assertTargets` fail. -/
theorem assertTargets_error_of_mem (A targets target config : JSVal) (t : String)
    (e : Failure) (ht : t ∈ targets.forInKeys) (hget : targets.get t = .ok target)
    (he : assertTarget A t target config = .error e) :
    ∃ e', assertTargets A targets config = .error e' := by
  by_cases hobj : targets.typeOf = "object"
  · rw [assertTargets_of_object A targets config hobj]
    apply forEachM_error_of_mem _ _ t e ht
    simp [assertTargetsEntry, hget, he, bind, Except.bind]
  · exact ⟨_, by
      simp [assertTargets, userAssert, hobj, truthy_bool, bind, Except.bind]; rfl⟩

/-- A config with a failing target fails `assertConfig`, whatever the config at the time
the target is checked is. -/
theorem assertConfig_error_of_target (A config targets target : JSVal) (t : String)
    (hg : config.get "targets" = .ok targets) (ht : t ∈ targets.forInKeys)
    (hget : targets.get t = .ok target)
    (he : ∀ c, ∃ e, assertTarget A t target c = .error e) :
    ∃ e, assertConfig A config = .error e := by
  by_cases hto : config.typeOf = "object"
  · cases hF : assertConfigFilters config with
    | error e => exact ⟨e, assertConfig_of_filters_error A config e hto hF⟩
    | ok c₁ =>
      cases hT : assertConfigTransport c₁ with
      | error e => exact ⟨e, assertConfig_of_transport_error A config c₁ e hto hF hT⟩
      | ok c₂ =>
        have hg₂ : c₂.get "targets" = .ok targets := by
          rw [assertConfigTransport_get c₁ c₂ "targets" hT (by decide),
            assertConfigFilters_get config c₁ "targets" hF (by decide), hg]
        obtain ⟨e, he'⟩ := he c₂
        obtain ⟨e', ht'⟩ := assertTargets_error_of_mem A targets target c₂ t e ht hget he'
        rw [assertConfig_of_sections A config c₁ c₂ targets hto hF hT hg₂, ht']
        exact ⟨e', rfl⟩
  · exact ⟨_, assertConfig_of_not_object A config hto⟩

/-- C3 (as amended). For every config containing a target whose `vars` has a key that does
not match `^_[A-Za-z0-9_-]+$`: validation fails; the check of that variable fails with
InvalidVariableName naming the variable and the pattern, whatever the variable's value
and the vendor catalog are; and InvalidVariableName is the error that validation reports
when every check that runs before it passes (the `filters` and `transport` sections, the
targets enumerated earlier, this target's `finalUrl` and filter references, and the
variables enumerated earlier). -/
theorem C3_invalid_variable_name (ANALYTICS_CONFIG config targets target vars : JSVal)
    (t varName : String) (htargets : config.get "targets" = .ok targets)
    (ht : t ∈ targets.forInKeys) (htarget : targets.get t = .ok target)
    (hvars : target.get "vars" = .ok vars) (hname : varName ∈ vars.forInKeys)
    (hpattern : patternTest varName = false) :
    (∃ e, assertConfig ANALYTICS_CONFIG config = .error e) ∧
    (∀ catalog vars', assertVariable catalog vars' varName =
      .error (InvalidVariableName varName)) ∧
    (∀ c₂, ReachesTarget ANALYTICS_CONFIG config c₂ t target →
      ReachesVariable ANALYTICS_CONFIG c₂ target vars varName →
      assertConfig ANALYTICS_CONFIG config = .error (InvalidVariableName varName)) := by
  refine ⟨?_, fun catalog vars' => assertVariable_bad_name catalog vars' varName hpattern, ?_⟩
  · exact assertConfig_error_of_target ANALYTICS_CONFIG config targets target t htargets ht
      htarget fun c =>
        assertTarget_error_of_bad_name ANALYTICS_CONFIG target vars c t varName hvars hname
          hpattern
  · intro c₂ hrt hrv
    exact assertConfig_of_reaches_target ANALYTICS_CONFIG config c₂ target t _ hrt
      (assertTarget_of_reaches_variable ANALYTICS_CONFIG c₂ target vars t varName _ hrv
        (assertVariable_bad_name ANALYTICS_CONFIG vars varName hpattern))

/-- The config `{targets: {t1: {vars: {bad: {defaultValue: 'x'}}}}}` contains a target
whose `vars` has the non-matching key `bad`, and `assertConfig` fails with MissingFinalUrl
naming `t1`, not with InvalidVariableName. -/
theorem C3_counterexample :
    patternTest "bad" = false ∧
    assertConfig (obj []) (obj [("targets", obj [("t1", obj [("vars",
      obj [("bad", obj [("defaultValue", str "x")])])])])]) =
      .error (MissingFinalUrl "t1") ∧
    assertConfig (obj []) (obj [("targets", obj [("t1", obj [("vars",
      obj [("bad", obj [("defaultValue", str "x")])])])])]) ≠
      .error (InvalidVariableName "bad") := by
  refine ⟨by decide, rfl, ?_⟩
  have h : assertConfig (obj []) (obj [("targets", obj [("t1", obj [("vars",
      obj [("bad", obj [("defaultValue", str "x")])])])])]) =
      .error (MissingFinalUrl "t1") := rfl
  rw [h]
  simp [MissingFinalUrl, InvalidVariableName]

/-- The config `{targets: {t0: {finalUrl: 'u'}, t1: {finalUrl: 'https://a.example',
vars: {_ok: {defaultValue: 'y'}, bad: {defaultValue: 'x'}}}}}` fails with
InvalidVariableName naming `bad`. -/
theorem C3_invalid_variable_name_witness :
    assertConfig (obj []) badNameConfig = .error (InvalidVariableName "bad") :=
  (C3_invalid_variable_name (obj []) badNameConfig
    (obj [("t0", obj [("finalUrl", str "u")]), ("t1", badNameTarget)]) badNameTarget
    (obj [("_ok", obj [("defaultValue", str "y")]), ("bad", obj [("defaultValue", str "x")])])
    "t1" "bad" rfl (by simp [forInKeys]) rfl rfl (by simp [forInKeys]) (by decide)).2.2
    (obj [("targets", obj [("t0", obj [("finalUrl", str "u")]), ("t1", badNameTarget)]),
      ("filters", obj []), ("transport", obj [])])
    ⟨rfl,
      obj [("targets", obj [("t0", obj [("finalUrl", str "u")]), ("t1", badNameTarget)]),
        ("filters", obj [])],
      obj [("t0", obj [("finalUrl", str "u")]), ("t1", badNameTarget)], ["t0"], [],
      rfl, rfl, rfl, rfl, rfl,
      (by
        intro t' ht'
        simp only [List.mem_singleton] at ht'
        subst ht'
        rfl),
      rfl⟩
    ⟨"https://a.example", undefined, ["_ok"], [], rfl, rfl, rfl, rfl, rfl,
      (by
        intro v hv
        simp only [List.mem_singleton] at hv
        subst hv
        rfl)⟩

/-! ## Vendor checks of a variable (C6, C7) -/

/-- C6. For every variable with a pattern-conforming name whose `vendorAnalyticsSource`
is a non-empty name for which the vendor catalog has no usable entry (the catalog is
missing, the name is absent, its descriptor has no `transport`, or that has no `iframe`),
the validation of the variable fails with UnknownVendor naming that vendor, whatever
`vendorAnalyticsResponseKey` is, and this is the error `assertConfig` reports when
validation reaches the variable; a name that is not a key of a catalog object is such a
name; and `assertVendor` returns exactly when the catalog entry exists and defines
`transport.iframe` (any value other than `undefined` counts). -/
theorem C6_unknown_vendor (ANALYTICS_CONFIG : JSVal) (vendor : String) :
    (∀ (vars value : JSVal) (varName : String),
      patternTest varName = true → vars.get varName = .ok value →
      value.get "vendorAnalyticsSource" = .ok (str vendor) → vendor ≠ "" →
      LacksIframe ANALYTICS_CONFIG vendor →
      assertVariable ANALYTICS_CONFIG vars varName = .error (UnknownVendor vendor) ∧
      ∀ (config c₂ target : JSVal) (t : String),
        ReachesTarget ANALYTICS_CONFIG config c₂ t target →
        ReachesVariable ANALYTICS_CONFIG c₂ target vars varName →
        assertConfig ANALYTICS_CONFIG config = .error (UnknownVendor vendor)) ∧
    (∀ props : List (String × JSVal), ANALYTICS_CONFIG = obj props →
      vendor ∉ props.map Prod.fst → LacksIframe ANALYTICS_CONFIG vendor) ∧
    (assertVendor ANALYTICS_CONFIG (str vendor) = .ok () ↔
      DefinesIframe ANALYTICS_CONFIG vendor) := by
  refine ⟨?_, ?_, assertVendor_ok_iff ANALYTICS_CONFIG vendor⟩
  · intro vars value varName hp hv hs hne hl
    have ht : (str vendor).truthy = true := (truthy_str vendor).mpr hne
    have hbody : assertVariable ANALYTICS_CONFIG vars varName =
        .error (UnknownVendor vendor) := by
      simp [assertVariable, userAssert, hp, hv, hs, ht, assertVendor_lacks _ _ hl, bind,
        Except.bind, truthy_bool]
    refine ⟨hbody, fun config c₂ target t hrt hrv => ?_⟩
    exact assertConfig_of_reaches_target ANALYTICS_CONFIG config c₂ target t _ hrt
      (assertTarget_of_reaches_variable ANALYTICS_CONFIG c₂ target vars t varName _ hrv hbody)
  · intro props hA hk
    rw [hA]
    exact lacksIframe_of_not_key props vendor hk

/-- With the sample catalog: the variable `_v` with `vendorAnalyticsSource: 'unknownVendor'`
fails with UnknownVendor naming `unknownVendor`, so does the config
`{targets: {t1: {finalUrl: 'https://a.example', vars: {_v: ...}}}}`, and
`assertVendor('known')` returns although `transport.iframe` is `null`. -/
theorem C6_unknown_vendor_witness :
    assertVariable sampleCatalog unknownVendorVars "_v" =
      .error (UnknownVendor "unknownVendor") ∧
    assertConfig sampleCatalog unknownVendorConfig = .error (UnknownVendor "unknownVendor") ∧
    assertVendor sampleCatalog (str "known") = .ok () :=
  have h := (C6_unknown_vendor sampleCatalog "unknownVendor").1 unknownVendorVars
    (obj [("defaultValue", str "x"), ("vendorAnalyticsSource", str "unknownVendor")]) "_v"
    (by decide) rfl rfl (by decide)
    ((C6_unknown_vendor sampleCatalog "unknownVendor").2.1 _ rfl (by decide))
  ⟨h.1,
    h.2 unknownVendorConfig
      (obj [("targets", obj [("t1", obj [("finalUrl", str "https://a.example"),
        ("vars", unknownVendorVars)])]), ("filters", obj []), ("transport", obj [])])
      (obj [("finalUrl", str "https://a.example"), ("vars", unknownVendorVars)]) "t1"
      ⟨rfl,
        obj [("targets", obj [("t1", obj [("finalUrl", str "https://a.example"),
          ("vars", unknownVendorVars)])]), ("filters", obj [])],
        obj [("t1", obj [("finalUrl", str "https://a.example"),
          ("vars", unknownVendorVars)])], [], [],
        rfl, rfl, rfl, rfl, rfl, (fun _ h' => absurd h' (List.not_mem_nil _)), rfl⟩
      ⟨"https://a.example", undefined, [], [], rfl, rfl, rfl, rfl, rfl,
        (fun _ h' => absurd h' (List.not_mem_nil _))⟩,
    (C6_unknown_vendor sampleCatalog "known").2.2.mpr
      ⟨rfl, obj [("transport", obj [("iframe", null)])], obj [("iframe", null)], null,
        rfl, rfl, rfl, rfl, rfl, rfl⟩⟩

/-- C7. For every variable with a pattern-conforming name whose `vendorAnalyticsSource`
is a non-empty name for which the vendor catalog defines `transport.iframe`, and whose
`vendorAnalyticsResponseKey` is absent or falsy, the validation of the variable fails with
MissingVendorResponseKey naming the variable, and this is the error `assertConfig` reports
when validation reaches the variable; and a variable whose `vendorAnalyticsSource` is not
set (absent or falsy) is never rejected with MissingVendorResponseKey: with a conforming
name its validation succeeds, whatever `vendorAnalyticsResponseKey` is. -/
theorem C7_missing_vendor_response_key (ANALYTICS_CONFIG vars value : JSVal)
    (varName : String) (hvalue : vars.get varName = .ok value) :
    (∀ (vendor : String) (responseKey : JSVal),
      patternTest varName = true →
      value.get "vendorAnalyticsSource" = .ok (str vendor) → vendor ≠ "" →
      DefinesIframe ANALYTICS_CONFIG vendor →
      value.get "vendorAnalyticsResponseKey" = .ok responseKey → responseKey.truthy = false →
      assertVariable ANALYTICS_CONFIG vars varName =
        .error (MissingVendorResponseKey varName) ∧
      ∀ (config c₂ target : JSVal) (t : String),
        ReachesTarget ANALYTICS_CONFIG config c₂ t target →
        ReachesVariable ANALYTICS_CONFIG c₂ target vars varName →
        assertConfig ANALYTICS_CONFIG config = .error (MissingVendorResponseKey varName)) ∧
    (∀ source : JSVal,
      value.get "vendorAnalyticsSource" = .ok source → source.truthy = false →
      assertVariable ANALYTICS_CONFIG vars varName ≠
        .error (MissingVendorResponseKey varName) ∧
      (patternTest varName = true →
        assertVariable ANALYTICS_CONFIG vars varName = .ok ())) := by
  constructor
  · intro vendor responseKey hp hs hne hd hr hf
    have ht : (str vendor).truthy = true := (truthy_str vendor).mpr hne
    have hv := (assertVendor_ok_iff ANALYTICS_CONFIG vendor).mpr hd
    have hbody : assertVariable ANALYTICS_CONFIG vars varName =
        .error (MissingVendorResponseKey varName) := by
      simp [assertVariable, userAssert, hp, hvalue, hs, ht, hv, hr, hf, bind, Except.bind,
        truthy_bool, MissingVendorResponseKey]
    refine ⟨hbody, fun config c₂ target t hrt hrv => ?_⟩
    exact assertConfig_of_reaches_target ANALYTICS_CONFIG config c₂ target t _ hrt
      (assertTarget_of_reaches_variable ANALYTICS_CONFIG c₂ target vars t varName _ hrv hbody)
  · intro source hs hf
    cases hp : patternTest varName with
    | true =>
      simp [assertVariable, userAssert, hp, hvalue, hs, hf, bind, Except.bind, truthy_bool,
        pure, Except.pure]
    | false =>
      simp [assertVariable, userAssert, hp, bind, Except.bind, truthy_bool,
        MissingVendorResponseKey]

/-- With the sample catalog: the variable `_v` with `vendorAnalyticsSource: 'known'` and an
empty `vendorAnalyticsResponseKey` fails with MissingVendorResponseKey naming `_v`, so
does the config `{targets: {t1: {finalUrl: 'https://a.example', vars: {_v: ...}}}}`, and
the variable `_w` without `vendorAnalyticsSource` passes. -/
theorem C7_missing_vendor_response_key_witness :
    assertVariable sampleCatalog noResponseKeyVars "_v" =
      .error (MissingVendorResponseKey "_v") ∧
    assertConfig sampleCatalog noResponseKeyConfig = .error (MissingVendorResponseKey "_v") ∧
    assertVariable sampleCatalog (obj [("_w", obj [("defaultValue", str "x")])]) "_w" =
      .ok () :=
  have h := (C7_missing_vendor_response_key sampleCatalog noResponseKeyVars
      (obj [("vendorAnalyticsSource", str "known"), ("vendorAnalyticsResponseKey", str "")])
      "_v" rfl).1 "known" (str "") (by decide) rfl (by decide)
      ⟨rfl, obj [("transport", obj [("iframe", null)])], obj [("iframe", null)], null,
        rfl, rfl, rfl, rfl, rfl, rfl⟩ rfl rfl
  ⟨h.1,
    h.2 noResponseKeyConfig
      (obj [("targets", obj [("t1", obj [("finalUrl", str "https://a.example"),
        ("vars", noResponseKeyVars)])]), ("filters", obj []), ("transport", obj [])])
      (obj [("finalUrl", str "https://a.example"), ("vars", noResponseKeyVars)]) "t1"
      ⟨rfl,
        obj [("targets", obj [("t1", obj [("finalUrl", str "https://a.example"),
          ("vars", noResponseKeyVars)])]), ("filters", obj [])],
        obj [("t1", obj [("finalUrl", str "https://a.example"),
          ("vars", noResponseKeyVars)])], [], [],
        rfl, rfl, rfl, rfl, rfl, (fun _ h' => absurd h' (List.not_mem_nil _)), rfl⟩
      ⟨"https://a.example", undefined, [], [], rfl, rfl, rfl, rfl, rfl,
        (fun _ h' => absurd h' (List.not_mem_nil _))⟩,
    ((C7_missing_vendor_response_key sampleCatalog
      (obj [("_w", obj [("defaultValue", str "x")])]) (obj [("defaultValue", str "x")])
      "_w" rfl).2 undefined rfl rfl).2 (by decide)⟩

/-! ## Check order within a variable (C14) -/

/-- C14. For each variable the checks run in the order name pattern, vendor existence,
response-key presence, and the error reported for the variable is that of the earliest
check it violates: with a non-conforming name the error is InvalidVariableName, whatever
the vendor and the response key are; with a conforming name and a vendor for which the
catalog has no usable entry the error is UnknownVendor (which is not
MissingVendorResponseKey), whatever the response key is; and with a conforming name and a
vendor defining `transport.iframe` a missing response key gives MissingVendorResponseKey. -/
theorem C14_variable_check_order (ANALYTICS_CONFIG vars : JSVal) (varName : String) :
    (patternTest varName = false →
      assertVariable ANALYTICS_CONFIG vars varName = .error (InvalidVariableName varName)) ∧
    (∀ (value : JSVal) (vendor : String), patternTest varName = true →
      vars.get varName = .ok value →
      value.get "vendorAnalyticsSource" = .ok (str vendor) → vendor ≠ "" →
      LacksIframe ANALYTICS_CONFIG vendor →
      assertVariable ANALYTICS_CONFIG vars varName = .error (UnknownVendor vendor) ∧
      UnknownVendor vendor ≠ MissingVendorResponseKey varName) ∧
    (∀ (value responseKey : JSVal) (vendor : String), patternTest varName = true →
      vars.get varName = .ok value →
      value.get "vendorAnalyticsSource" = .ok (str vendor) → vendor ≠ "" →
      DefinesIframe ANALYTICS_CONFIG vendor →
      value.get "vendorAnalyticsResponseKey" = .ok responseKey → responseKey.truthy = false →
      assertVariable ANALYTICS_CONFIG vars varName =
        .error (MissingVendorResponseKey varName)) := by
  refine ⟨assertVariable_bad_name ANALYTICS_CONFIG vars varName, ?_, ?_⟩
  · intro value vendor hp hv hs hne hl
    have ht : (str vendor).truthy = true := (truthy_str vendor).mpr hne
    constructor
    · simp [assertVariable, userAssert, hp, hv, hs, ht, assertVendor_lacks _ _ hl, bind,
        Except.bind, truthy_bool]
    · simp [UnknownVendor, MissingVendorResponseKey]
  · intro value responseKey vendor hp hv hs hne hd hr hf
    have ht : (str vendor).truthy = true := (truthy_str vendor).mpr hne
    have hok := (assertVendor_ok_iff ANALYTICS_CONFIG vendor).mpr hd
    simp [assertVariable, userAssert, hp, hv, hs, ht, hok, hr, hf, bind, Except.bind,
      truthy_bool, MissingVendorResponseKey]

/-- With the sample catalog: the variable `bad` with an unknown vendor reports
InvalidVariableName; the variable `_v` with an unknown vendor and no response key reports
UnknownVendor; the variable `_v` with the vendor `known` and no response key reports
MissingVendorResponseKey. -/
theorem C14_variable_check_order_witness :
    assertVariable sampleCatalog
      (obj [("bad", obj [("vendorAnalyticsSource", str "unknownVendor")])]) "bad" =
      .error (InvalidVariableName "bad") ∧
    assertVariable sampleCatalog
      (obj [("_v", obj [("vendorAnalyticsSource", str "unknownVendor")])]) "_v" =
      .error (UnknownVendor "unknownVendor") ∧
    assertVariable sampleCatalog
      (obj [("_v", obj [("vendorAnalyticsSource", str "known")])]) "_v" =
      .error (MissingVendorResponseKey "_v") :=
  ⟨(C14_variable_check_order sampleCatalog
      (obj [("bad", obj [("vendorAnalyticsSource", str "unknownVendor")])]) "bad").1
      (by decide),
    ((C14_variable_check_order sampleCatalog
      (obj [("_v", obj [("vendorAnalyticsSource", str "unknownVendor")])]) "_v").2.1
      (obj [("vendorAnalyticsSource", str "unknownVendor")]) "unknownVendor"
      (by decide) rfl rfl (by decide)
      (lacksIframe_of_not_key _ "unknownVendor" (by decide))).1,
    (C14_variable_check_order sampleCatalog
      (obj [("_v", obj [("vendorAnalyticsSource", str "known")])]) "_v").2.2
      (obj [("vendorAnalyticsSource", str "known")]) undefined "known"
      (by decide) rfl rfl (by decide)
      ⟨rfl, obj [("transport", obj [("iframe", null)])], obj [("iframe", null)], null,
        rfl, rfl, rfl, rfl, rfl, rfl⟩ rfl rfl⟩

/-! ## The arguments of an undefined filter reference (C16) -/

/-- The check of a reference to a filter whose read in the catalog is falsy. -/
theorem assertFilterRef_undefined (config catalog filter found : JSVal) (key : String)
    (hc : config.get "filters" = .ok catalog) (hk : filter.toKey = .ok key)
    (hf : catalog.get key = .ok found) (ht : found.truthy = false) :
    assertFilterRef config filter = .error (UndefinedFilterReference filter) := by
  simp [assertFilterRef, hc, hk, hf, userAssert, ht, bind, Except.bind,
    UndefinedFilterReference]

/-- C16 (as amended). Whenever validation of a target fails because a name in its
`filters` list is not in the filter catalog (the read of the catalog under that name is
falsy, and the references before it resolve), the error is the assertion with the message
`filter '%s' not defined` whose only argument is the missing filter: the error names the
filter and, whatever the target's name is, not the target. -/
theorem C16_undefined_reference_names_filter_only (ANALYTICS_CONFIG : JSVal) (name : String)
    (target config catalog filter found : JSVal) (url key : String)
    (items pre post : List JSVal) (named : List (String × JSVal))
    (hurl : target.get "finalUrl" = .ok (str url))
    (hfilters : target.get "filters" = .ok (arr items named))
    (hforEach : hasKey "forEach" named = false)
    (hitems : items = pre ++ filter :: post)
    (hpre : ∀ x ∈ pre, assertFilterRef config x = .ok ())
    (hcatalog : config.get "filters" = .ok catalog) (hkey : filter.toKey = .ok key)
    (hfound : catalog.get key = .ok found) (hfalsy : found.truthy = false) :
    assertTarget ANALYTICS_CONFIG name target config =
      .error (.userError (some "filter '%s' not defined") [filter]) := by
  have hbody := assertFilterRef_undefined config catalog filter found key hcatalog hkey
    hfound hfalsy
  have hloop : forEachM (assertFilterRef config) items =
      .error (UndefinedFilterReference filter) := by
    rw [hitems]
    exact forEachM_first_error _ pre post filter _ hpre hbody
  simp [assertTarget, hurl, hfilters, userAssert, typeOf, truthy_bool, bind, Except.bind,
    assertTargetFilters, truthy, hforEach, hloop, UndefinedFilterReference]

/-- The config `{targets: {t1: {finalUrl: 'https://a.example', filters: ['f1']}}}` fails
with the message `filter '%s' not defined` and the single argument `f1`: the target `t1`
is not among the arguments of the reported message. -/
theorem C16_counterexample :
    assertConfig (obj []) undefinedRefConfig =
      .error (.userError (some "filter '%s' not defined") [str "f1"]) ∧
    str "t1" ∉ [str "f1"] :=
  ⟨rfl, by simp⟩

/-- The target `{finalUrl: 'https://a.example', filters: ['f1']}`, under the name `t1` and
with an empty catalog, fails with the single argument `f1`. -/
theorem C16_undefined_reference_names_filter_only_witness :
    assertTarget (obj []) "t1"
      (obj [("finalUrl", str "https://a.example"), ("filters", arr [str "f1"] [])])
      (obj [("filters", obj [])]) =
      .error (.userError (some "filter '%s' not defined") [str "f1"]) :=
  C16_undefined_reference_names_filter_only (obj []) "t1" _ (obj [("filters", obj [])])
    (obj []) (str "f1") undefined "https://a.example" "f1" [str "f1"] [] [] [] rfl rfl rfl rfl
    (fun _ h' => absurd h' (List.not_mem_nil _)) rfl rfl rfl rfl

/-! ## Malformed filter entries (C17) -/

/-- C17 (evaluation at the failing input). On the catalog `{f: null}` the assertion
`typeof filters[name] == 'object'` passes, since `typeof null` is `'object'`, and the
type-tag check then reads `null.type`, which throws a `TypeError`, not MalformedFilter;
on a string, number or boolean entry the error is MalformedFilter naming the entry,
raised before the type tag is read. -/
theorem C17_null_filter_entry_type_error (ANALYTICS_CONFIG : JSVal) :
    assertFilters (obj [("f", null)]) = .error .typeError ∧
    assertConfig ANALYTICS_CONFIG (obj [("filters", obj [("f", null)]), ("targets", obj [])]) =
      .error .typeError ∧
    Failure.typeError ≠ MalformedFilter "f" ∧
    (∀ s, assertFilters (obj [("f", str s)]) = .error (MalformedFilter "f")) ∧
    (∀ n, assertFilters (obj [("f", num n)]) = .error (MalformedFilter "f")) ∧
    (∀ b, assertFilters (obj [("f", bool b)]) = .error (MalformedFilter "f")) :=
  ⟨rfl, rfl, by simp [MalformedFilter], fun _ => rfl, fun _ => rfl, fun _ => rfl⟩

/-! ## Failure safety (C19) -/

/-- C19 (evaluation at the failing inputs). Each of these JSON values makes `assertConfig`
throw a `TypeError`, which is not a user assertion: the top-level value `null`; a `null`
filter entry; a `null` target; a `null` variable value; a target whose `filters` is a
string or an object rather than a sequence. -/
theorem C19_type_errors (ANALYTICS_CONFIG : JSVal) :
    assertConfig ANALYTICS_CONFIG null = .error .typeError ∧
    assertConfig ANALYTICS_CONFIG (obj [("filters", obj [("f", null)]), ("targets", obj [])]) =
      .error .typeError ∧
    assertConfig ANALYTICS_CONFIG (obj [("targets", obj [("t1", null)])]) =
      .error .typeError ∧
    assertConfig ANALYTICS_CONFIG (obj [("targets", obj [("t1",
      obj [("finalUrl", str "https://a.example"), ("vars", obj [("_v", null)])])])]) =
      .error .typeError ∧
    assertConfig ANALYTICS_CONFIG (obj [("targets", obj [("t1",
      obj [("finalUrl", str "https://a.example"), ("filters", str "f1")])])]) =
      .error .typeError ∧
    assertConfig ANALYTICS_CONFIG (obj [("targets", obj [("t1",
      obj [("finalUrl", str "https://a.example"), ("filters", obj [("0", str "f1")])])])]) =
      .error .typeError ∧
    (∀ message args, Failure.typeError ≠ .userError message args) :=
  ⟨rfl, rfl, rfl, rfl, rfl, rfl, fun _ _ => by simp⟩

/-! ## The defaulting statements -/

theorem assertConfigFilters_falsy (config f : JSVal) (hg : config.get "filters" = .ok f)
    (ht : f.truthy = false) :
    assertConfigFilters config = config.set "filters" (obj []) := by
  simp [assertConfigFilters, hg, ht, bind, Except.bind]

theorem assertConfigFilters_truthy (config f : JSVal) (hg : config.get "filters" = .ok f)
    (ht : f.truthy = true) :
    assertConfigFilters config = (assertFilters f).map fun _ => config := by
  simp only [assertConfigFilters, hg, ht, bind, Except.bind, if_true, pure, Except.pure]
  cases assertFilters f <;> rfl

theorem assertConfigTransport_falsy (config tr : JSVal) (hg : config.get "transport" = .ok tr)
    (ht : tr.truthy = false) :
    assertConfigTransport config = config.set "transport" (obj []) := by
  simp [assertConfigTransport, hg, ht, bind, Except.bind]

theorem assertConfigTransport_truthy (config tr : JSVal)
    (hg : config.get "transport" = .ok tr) (ht : tr.truthy = true) :
    assertConfigTransport config = (assertTransport tr).map fun _ => config := by
  simp only [assertConfigTransport, hg, ht, bind, Except.bind, if_true, pure, Except.pure]
  cases assertTransport tr <;> rfl

/-- A value of type `'object'` that can be read can be assigned to. -/
theorem set_ok_of_object (c x y : JSVal) (k k' : String) (ho : c.typeOf = "object")
    (hg : c.get k' = .ok y) : ∃ c', c.set k x = .ok c' := by
  cases c with
  | obj props => exact ⟨_, rfl⟩
  | arr items named => exact ⟨_, rfl⟩
  | null => simp [JSVal.get] at hg
  | undefined => simp [typeOf] at ho
  | bool b => simp [typeOf] at ho
  | num n => simp [typeOf] at ho
  | str s => simp [typeOf] at ho
  | builtin n => simp [typeOf] at ho

/-- After the `filters` statement, `filters` holds the defaulted value, the catalog has
passed `assertFilters`, and the config keeps its type. -/
theorem assertConfigFilters_ok (config c₁ f : JSVal) (hg : config.get "filters" = .ok f)
    (h : assertConfigFilters config = .ok c₁) :
    c₁.get "filters" = .ok (defaulted f) ∧ assertFilters (defaulted f) = .ok () ∧
      c₁.typeOf = config.typeOf := by
  cases ht : f.truthy with
  | true =>
    rw [assertConfigFilters_truthy config f hg ht] at h
    cases hf : assertFilters f with
    | error e => simp [hf, Except.map] at h
    | ok u =>
      simp only [hf, Except.map, Except.ok.injEq] at h
      subst h
      simp [defaulted, ht, hg, hf]
  | false =>
    rw [assertConfigFilters_falsy config f hg ht] at h
    refine ⟨?_, ?_, typeOf_set config c₁ _ _ h⟩
    · simp only [defaulted, ht, Bool.false_eq_true, if_false]
      exact get_set_same config c₁ _ "filters" h (by decide)
    · simp only [defaulted, ht, Bool.false_eq_true, if_false]
      rfl

/-- After the `transport` statement, `transport` holds the defaulted value, which has
passed `assertTransport`, and the config keeps its type. -/
theorem assertConfigTransport_ok (config c₁ tr : JSVal)
    (hg : config.get "transport" = .ok tr) (h : assertConfigTransport config = .ok c₁) :
    c₁.get "transport" = .ok (defaulted tr) ∧ assertTransport (defaulted tr) = .ok () ∧
      c₁.typeOf = config.typeOf := by
  cases ht : tr.truthy with
  | true =>
    rw [assertConfigTransport_truthy config tr hg ht] at h
    cases hf : assertTransport tr with
    | error e => simp [hf, Except.map] at h
    | ok u =>
      simp only [hf, Except.map, Except.ok.injEq] at h
      subst h
      simp [defaulted, ht, hg, hf]
  | false =>
    rw [assertConfigTransport_falsy config tr hg ht] at h
    refine ⟨?_, ?_, typeOf_set config c₁ _ _ h⟩
    · simp only [defaulted, ht, Bool.false_eq_true, if_false]
      exact get_set_same config c₁ _ "transport" h (by decide)
    · simp only [defaulted, ht, Bool.false_eq_true, if_false]
      rfl

/-- A defaulted value is truthy. -/
theorem truthy_defaulted (v : JSVal) : (defaulted v).truthy = true := by
  unfold defaulted
  cases h : v.truthy with
  | true => simpa using h
  | false => rfl

/-- What a returning call of `assertConfig` went through. -/
theorem assertConfig_ok_inv (A c c' : JSVal) (h : assertConfig A c = .ok c') :
    c.typeOf = "object" ∧
    ∃ c₁ targets, assertConfigFilters c = .ok c₁ ∧ assertConfigTransport c₁ = .ok c' ∧
      c'.get "targets" = .ok targets ∧ assertTargets A targets c' = .ok () := by
  by_cases ho : c.typeOf = "object"
  · refine ⟨ho, ?_⟩
    cases hF : assertConfigFilters c with
    | error e =>
      rw [assertConfig_of_filters_error A c e ho hF] at h
      cases h
    | ok c₁ =>
      cases hT : assertConfigTransport c₁ with
      | error e =>
        rw [assertConfig_of_transport_error A c c₁ e ho hF hT] at h
        cases h
      | ok c₂ =>
        cases hg : c₂.get "targets" with
        | error e =>
          simp [assertConfig, userAssert, ho, truthy_bool, hF, hT, hg, bind, Except.bind] at h
        | ok targets =>
          rw [assertConfig_of_sections A c c₁ c₂ targets ho hF hT hg] at h
          cases hA : assertTargets A targets c₂ with
          | error e =>
            rw [hA] at h
            cases h
          | ok u =>
            rw [hA] at h
            simp only [Except.ok.injEq] at h
            subst h
            exact ⟨c₁, targets, rfl, hT, hg, by cases u; exact hA⟩
  · rw [assertConfig_of_not_object A c ho] at h
    cases h

theorem get_filters_of_assertConfigFilters (c c₁ : JSVal)
    (h : assertConfigFilters c = .ok c₁) : ∃ f, c.get "filters" = .ok f := by
  cases hg : c.get "filters" with
  | ok f => exact ⟨f, rfl⟩
  | error e => simp [assertConfigFilters, hg, bind, Except.bind] at h

theorem get_transport_of_assertConfigTransport (c c₁ : JSVal)
    (h : assertConfigTransport c = .ok c₁) : ∃ tr, c.get "transport" = .ok tr := by
  cases hg : c.get "transport" with
  | ok tr => exact ⟨tr, rfl⟩
  | error e => simp [assertConfigTransport, hg, bind, Except.bind] at h

/-- The reads of a returned config, in terms of the reads of the input. -/
theorem assertConfig_ok_reads (A c c' f tr : JSVal) (h : assertConfig A c = .ok c')
    (hf : c.get "filters" = .ok f) (htr : c.get "transport" = .ok tr) :
    c'.get "filters" = .ok (defaulted f) ∧ c'.get "transport" = .ok (defaulted tr) ∧
    (∀ k, k ≠ "filters" → k ≠ "transport" → c'.get k = c.get k) ∧
    c'.typeOf = c.typeOf := by
  obtain ⟨_, c₁, targets, hF, hT, _, _⟩ := assertConfig_ok_inv A c c' h
  have h₁ := assertConfigFilters_ok c c₁ f hf hF
  have htr₁ : c₁.get "transport" = .ok tr := by
    rw [assertConfigFilters_get c c₁ "transport" hF (by decide), htr]
  have h₂ := assertConfigTransport_ok c₁ c' tr htr₁ hT
  refine ⟨?_, h₂.1, ?_, ?_⟩
  · rw [assertConfigTransport_get c₁ c' "filters" hT (by decide)]
    exact h₁.1
  · intro k hk₁ hk₂
    rw [assertConfigTransport_get c₁ c' k hT hk₂, assertConfigFilters_get c c₁ k hF hk₁]
  · rw [h₂.2.2, h₁.2.2]

/-! ## Idempotence (C12) -/

/-- C12. For every input `c` and vendor catalog, if `assertConfig(c)` returns `c'` then
`assertConfig(c')` returns as well, and its result is `c'`: the second pass changes
nothing. -/
theorem C12_idempotent (ANALYTICS_CONFIG c c' : JSVal)
    (h : assertConfig ANALYTICS_CONFIG c = .ok c') :
    assertConfig ANALYTICS_CONFIG c' = .ok c' := by
  obtain ⟨ho, c₁, targets, hF, hT, hg, hA⟩ := assertConfig_ok_inv ANALYTICS_CONFIG c c' h
  obtain ⟨f, hf⟩ := get_filters_of_assertConfigFilters c c₁ hF
  obtain ⟨tr, htr₁⟩ := get_transport_of_assertConfigTransport c₁ c' hT
  have htr : c.get "transport" = .ok tr := by
    rw [← assertConfigFilters_get c c₁ "transport" hF (by decide), htr₁]
  obtain ⟨hf', htr', _, hto⟩ := assertConfig_ok_reads ANALYTICS_CONFIG c c' f tr h hf htr
  have hFok := (assertConfigFilters_ok c c₁ f hf hF).2.1
  have hTok := (assertConfigTransport_ok c₁ c' tr htr₁ hT).2.1
  have hF' : assertConfigFilters c' = .ok c' := by
    rw [assertConfigFilters_truthy c' (defaulted f) hf' (truthy_defaulted f), hFok]
    rfl
  have hT' : assertConfigTransport c' = .ok c' := by
    rw [assertConfigTransport_truthy c' (defaulted tr) htr' (truthy_defaulted tr), hTok]
    rfl
  rw [assertConfig_of_sections ANALYTICS_CONFIG c' c' c' targets (by rw [hto, ho]) hF' hT' hg,
    hA]

/-- The config `{targets: {t1: {finalUrl: 'https://a.example'}}}` is returned with its two
defaults, and validating the returned config again returns it unchanged. -/
theorem C12_idempotent_witness :
    assertConfig (obj []) minimalConfig = .ok minimalConfigDefaulted ∧
    assertConfig (obj []) minimalConfigDefaulted = .ok minimalConfigDefaulted :=
  ⟨rfl, C12_idempotent (obj []) minimalConfig minimalConfigDefaulted rfl⟩

/-! ## Frame and defaulting (C13) -/

/-- C13 (as amended). For every input on which `assertConfig` returns, the returned
config reads as the input config does, except that `filters` and `transport` read as the
defaulted value: a truthy `filters` or `transport` is returned with exactly the value it
had, and one that is absent or falsy (`null`, `false`, `0`, `''`) is the empty object;
`targets` and every other key are returned unchanged, and so is the type of the config. -/
theorem C13_frame_and_defaulting (ANALYTICS_CONFIG c c' filters transport : JSVal)
    (hreturn : assertConfig ANALYTICS_CONFIG c = .ok c')
    (hfilters : c.get "filters" = .ok filters)
    (htransport : c.get "transport" = .ok transport) :
    c'.get "filters" = .ok (if filters.truthy then filters else obj []) ∧
    c'.get "transport" = .ok (if transport.truthy then transport else obj []) ∧
    c'.get "targets" = c.get "targets" ∧
    (∀ k, k ≠ "filters" → k ≠ "transport" → c'.get k = c.get k) ∧
    c'.typeOf = c.typeOf := by
  obtain ⟨h₁, h₂, h₃, h₄⟩ :=
    assertConfig_ok_reads ANALYTICS_CONFIG c c' filters transport hreturn hfilters htransport
  exact ⟨h₁, h₂, h₃ "targets" (by decide) (by decide), h₃, h₄⟩

/-- The config `{filters: 0, targets: {}}` supplies the value `0` for `filters`, and the
returned config has the empty object there (so has `{filters: null, targets: {}}`): a
value that was present in the input is not returned with the value it had. -/
theorem C13_counterexample :
    (obj [("filters", num 0), ("targets", obj [])]).get "filters" = .ok (num 0) ∧
    assertConfig (obj []) (obj [("filters", num 0), ("targets", obj [])]) =
      .ok (obj [("filters", obj []), ("targets", obj []), ("transport", obj [])]) ∧
    assertConfig (obj []) (obj [("filters", null), ("targets", obj [])]) =
      .ok (obj [("filters", obj []), ("targets", obj []), ("transport", obj [])]) ∧
    (obj [("filters", obj []), ("targets", obj []), ("transport", obj [])]).get "filters" ≠
      .ok (num 0) := by
  refine ⟨rfl, rfl, rfl, ?_⟩
  have h : (obj [("filters", obj []), ("targets", obj []), ("transport", obj [])]).get
      "filters" = .ok (obj []) := rfl
  rw [h]
  simp

/-- The config `{targets: {t1: {finalUrl: 'https://a.example'}}}` is returned as that
config plus `filters: {}` and `transport: {}`. -/
theorem C13_frame_and_defaulting_witness :
    assertConfig (obj []) minimalConfig = .ok minimalConfigDefaulted ∧
    minimalConfigDefaulted.get "filters" = .ok (obj []) ∧
    minimalConfigDefaulted.get "transport" = .ok (obj []) ∧
    minimalConfigDefaulted.get "targets" = minimalConfig.get "targets" :=
  have h := C13_frame_and_defaulting (obj []) minimalConfig minimalConfigDefaulted undefined
    undefined rfl rfl rfl
  ⟨rfl, h.1, h.2.1, h.2.2.1⟩

/-! ## Presence is truthiness (C20) -/

/-- The two defaulting statements, by the truthiness of the value they read. -/
theorem presence_is_truthiness (config value : JSVal) (hobject : config.typeOf = "object") :
    (config.get "filters" = .ok value → value.truthy = false →
      assertConfigFilters config = config.set "filters" (obj []) ∧
      ∃ c₁, assertConfigFilters config = .ok c₁ ∧ c₁.get "filters" = .ok (obj [])) ∧
    (config.get "filters" = .ok value → value.truthy = true →
      assertConfigFilters config = (assertFilters value).map fun _ => config) ∧
    (config.get "transport" = .ok value → value.truthy = false →
      assertConfigTransport config = config.set "transport" (obj []) ∧
      ∃ c₁, assertConfigTransport config = .ok c₁ ∧ c₁.get "transport" = .ok (obj [])) ∧
    (config.get "transport" = .ok value → value.truthy = true →
      assertConfigTransport config = (assertTransport value).map fun _ => config) := by
  refine ⟨?_, assertConfigFilters_truthy config value, ?_,
    assertConfigTransport_truthy config value⟩
  · intro hg ht
    have heq := assertConfigFilters_falsy config value hg ht
    obtain ⟨c₁, hs⟩ := set_ok_of_object config (obj []) value "filters" "filters" hobject hg
    exact ⟨heq, c₁, by rw [heq, hs], get_set_same config c₁ _ "filters" hs (by decide)⟩
  · intro hg ht
    have heq := assertConfigTransport_falsy config value hg ht
    obtain ⟨c₁, hs⟩ := set_ok_of_object config (obj []) value "transport" "transport"
      hobject hg
    exact ⟨heq, c₁, by rw [heq, hs], get_set_same config c₁ _ "transport" hs (by decide)⟩

/-- C20. For every config of type `'object'` whose `filters` can be read: when the value
is falsy (absent, `null`, `false`, `0`, `''`) the `filters` statement validates nothing
and assigns the empty object, which is then what `filters` reads as; when the value is
truthy, whatever its type, the statement is the call of `assertFilters` on that value and
leaves the config as it is. Likewise for `transport` and `assertTransport`. And whenever
`assertConfig` returns, the returned config reads under `filters` and `transport` the
supplied value when that was truthy and the empty object when it was not. -/
theorem C20_presence_is_truthiness (config value : JSVal)
    (hobject : config.typeOf = "object") :
    (config.get "filters" = .ok value → value.truthy = false →
      assertConfigFilters config = config.set "filters" (obj []) ∧
      ∃ c₁, assertConfigFilters config = .ok c₁ ∧ c₁.get "filters" = .ok (obj [])) ∧
    (config.get "filters" = .ok value → value.truthy = true →
      assertConfigFilters config = (assertFilters value).map fun _ => config) ∧
    (config.get "transport" = .ok value → value.truthy = false →
      assertConfigTransport config = config.set "transport" (obj []) ∧
      ∃ c₁, assertConfigTransport config = .ok c₁ ∧ c₁.get "transport" = .ok (obj [])) ∧
    (config.get "transport" = .ok value → value.truthy = true →
      assertConfigTransport config = (assertTransport value).map fun _ => config) ∧
    (∀ (ANALYTICS_CONFIG c' other : JSVal), assertConfig ANALYTICS_CONFIG config = .ok c' →
      (config.get "filters" = .ok value → config.get "transport" = .ok other →
        c'.get "filters" = .ok (if value.truthy then value else obj [])) ∧
      (config.get "transport" = .ok value → config.get "filters" = .ok other →
        c'.get "transport" = .ok (if value.truthy then value else obj []))) := by
  obtain ⟨h₁, h₂, h₃, h₄⟩ := presence_is_truthiness config value hobject
  refine ⟨h₁, h₂, h₃, h₄, ?_⟩
  intro A c' other hret
  exact ⟨fun hf htr => (assertConfig_ok_reads A config c' value other hret hf htr).1,
    fun htr hf => (assertConfig_ok_reads A config c' other value hret hf htr).2.1⟩

/-- In `{filters: 0, transport: true, targets: {}}` the falsy `filters` is overwritten
with the empty object without validation, the truthy boolean `transport` is passed to
`assertTransport` and left in place, and the returned config reads `transport` as `true`. -/
theorem C20_presence_is_truthiness_witness :
    assertConfigFilters (obj [("filters", num 0), ("transport", bool true),
      ("targets", obj [])]) =
      .ok (obj [("filters", obj []), ("transport", bool true), ("targets", obj [])]) ∧
    assertConfigTransport (obj [("filters", num 0), ("transport", bool true),
      ("targets", obj [])]) =
      (assertTransport (bool true)).map (fun _ =>
        obj [("filters", num 0), ("transport", bool true), ("targets", obj [])]) ∧
    (obj [("filters", obj []), ("transport", bool true), ("targets", obj [])]).get
      "transport" = .ok (bool true) :=
  ⟨((C20_presence_is_truthiness (obj [("filters", num 0), ("transport", bool true),
      ("targets", obj [])]) (num 0) rfl).1 rfl rfl).1,
    (C20_presence_is_truthiness (obj [("filters", num 0), ("transport", bool true),
      ("targets", obj [])]) (bool true) rfl).2.2.2.1 rfl rfl,
    ((C20_presence_is_truthiness (obj [("filters", num 0), ("transport", bool true),
      ("targets", obj [])]) (bool true) rfl).2.2.2.2 (obj [])
      (obj [("filters", obj []), ("transport", bool true), ("targets", obj [])]) (num 0)
      rfl).2 rfl rfl⟩

/-! ## Completeness (C11) -/

/-- A key of a property list is read as one of the entries with that key. -/
theorem lookup_of_mem_keys (ps : List (String × JSVal)) (k : String)
    (h : k ∈ ps.map Prod.fst) : ∃ v, ps.lookup k = some v ∧ (k, v) ∈ ps := by
  induction ps with
  | nil => simp at h
  | cons p rest ih =>
    obtain ⟨k₀, v₀⟩ := p
    by_cases hk : k = k₀
    · subst hk
      exact ⟨v₀, by simp, by simp⟩
    · have hb : (k == k₀) = false := by simpa using hk
      have hrest : k ∈ rest.map Prod.fst := by
        simp only [List.map_cons, List.mem_cons] at h
        rcases h with h | h
        · exact absurd h hk
        · exact h
      obtain ⟨v, hv, hmem⟩ := ih hrest
      exact ⟨v, by simp [List.lookup_cons, hb, hv], List.mem_cons_of_mem _ hmem⟩

theorem get_obj_of_lookup (ps : List (String × JSVal)) (k : String) (v : JSVal)
    (h : ps.lookup k = some v) : (obj ps).get k = .ok v := by
  simp [JSVal.get, h]

/-- A name that an object neither owns nor inherits reads as `undefined`. -/
theorem get_obj_absent (ps : List (String × JSVal)) (k : String) (h : ps.lookup k = none)
    (h₁ : (k == "__proto__") = false) (h₂ : objectPrototype.contains k = false) :
    (obj ps).get k = .ok undefined := by
  simp only [JSVal.get, h, hidden_obj, h₁, h₂, Bool.false_eq_true, if_false]

/-- The check of a filter entry that is an object tagged with a supported type. -/
theorem assertFilter_supported (filters : JSVal) (name : String)
    (fields : List (String × JSVal)) (he : filters.get name = .ok (obj fields))
    (ht : fields.lookup "type" = some (str FilterType.CLICK_DELAY) ∨
      fields.lookup "type" = some (str FilterType.CLICK_LOCATION)) :
    assertFilter filters name = .ok () := by
  rcases ht with ht | ht
  · simp [assertFilter, he, typeOf, userAssert, truthy_bool, bind, Except.bind, pure,
      Except.pure, get_obj_of_lookup fields "type" _ ht, looseEqTag]
  · simp [assertFilter, he, typeOf, userAssert, truthy_bool, bind, Except.bind, pure,
      Except.pure, get_obj_of_lookup fields "type" _ ht, looseEqTag,
      FilterType.CLICK_DELAY, FilterType.CLICK_LOCATION]

/-- A valid catalog passes `assertFilters`. -/
theorem assertFilters_of_valid (catalog : List (String × JSVal))
    (h : ValidFilterCatalog catalog) : assertFilters (obj catalog) = .ok () := by
  unfold assertFilters
  rw [forEachM_ok_iff]
  intro name hname
  obtain ⟨entry, hl, hmem⟩ := lookup_of_mem_keys catalog name hname
  obtain ⟨fields, he, ht⟩ := h (name, entry) hmem
  simp only at he
  subst he
  exact assertFilter_supported (obj catalog) name fields (get_obj_of_lookup catalog name _ hl) ht

/-- A valid transport mapping passes `assertTransport`. -/
theorem assertTransport_of_valid (transport : List (String × JSVal))
    (h : ValidTransport transport) : assertTransport (obj transport) = .ok () := by
  unfold assertTransport
  rw [forEachM_ok_iff]
  intro t ht
  obtain ⟨v, hl, hmem⟩ := lookup_of_mem_keys transport t ht
  obtain ⟨hk, b, hb⟩ := h (t, v) hmem
  simp only at hk hb
  subst hb
  exact (assertTransportEntry_ok_iff (obj transport) t).mpr
    ⟨hk, b, get_obj_of_lookup transport t _ hl⟩

/-- A valid variable passes its checks. -/
theorem assertVariable_of_valid (A : JSVal) (vars : List (String × JSVal)) (varName : String)
    (value : JSVal) (hl : vars.lookup varName = some value)
    (hp : patternTest varName = true) (hv : ValidVariable A value) :
    assertVariable A (obj vars) varName = .ok () := by
  obtain ⟨fields, hvalue, hsource⟩ := hv
  have hget := get_obj_of_lookup vars varName value hl
  obtain ⟨source, hs⟩ : ∃ source, value.get "vendorAnalyticsSource" = .ok source := by
    rw [hvalue]
    simp only [JSVal.get]
    split <;> exact ⟨_, rfl⟩
  cases ht : source.truthy with
  | false =>
    simp [assertVariable, userAssert, hp, hget, hs, ht, truthy_bool, bind, Except.bind, pure,
      Except.pure]
  | true =>
    obtain ⟨vendor, responseKey, hsrc, hd, hr, hrt⟩ := hsource source hs ht
    subst hsrc
    have hok := (assertVendor_ok_iff A vendor).mpr hd
    simp [assertVariable, userAssert, hp, hget, hs, ht, hok, hr, hrt, truthy_bool, bind,
      Except.bind]

/-- A reference to a filter that is a key of a catalog of truthy entries resolves. -/
theorem assertFilterRef_of_key (config : JSVal) (catalog : List (String × JSVal))
    (n : String) (hc : config.get "filters" = .ok (obj catalog))
    (hcat : ∀ p ∈ catalog, p.2.truthy = true) (hn : n ∈ catalog.map Prod.fst) :
    assertFilterRef config (str n) = .ok () := by
  obtain ⟨entry, hl, hmem⟩ := lookup_of_mem_keys catalog n hn
  have ht : entry.truthy = true := hcat (n, entry) hmem
  simp [assertFilterRef, hc, toKey, toStr, get_obj_of_lookup catalog n entry hl, userAssert,
    ht, bind, Except.bind]

/-- A valid target passes `assertTarget`. -/
theorem assertTarget_of_valid (A config : JSVal) (catalog : List (String × JSVal))
    (name : String) (target : JSVal) (hc : config.get "filters" = .ok (obj catalog))
    (hcat : ∀ p ∈ catalog, p.2.truthy = true) (hv : ValidTarget A catalog target) :
    assertTarget A name target config = .ok () := by
  obtain ⟨fields, htarget, ⟨url, hurl⟩, hfl, hvars⟩ := hv
  subst htarget
  have h₁ := get_obj_of_lookup fields "finalUrl" _ hurl
  have h₂ : ∃ fl, (obj fields).get "filters" = .ok fl ∧
      assertTargetFilters config fl = .ok () := by
    rcases hfl with hnone | ⟨names, hsome, hnames⟩
    · exact ⟨undefined, get_obj_absent fields "filters" hnone (by decide) (by decide), rfl⟩
    · refine ⟨_, get_obj_of_lookup fields "filters" _ hsome, ?_⟩
      have hloop : forEachM (assertFilterRef config) (names.map str) = .ok () := by
        rw [forEachM_ok_iff]
        intro x hx
        obtain ⟨n, hn, rfl⟩ := List.mem_map.mp hx
        exact assertFilterRef_of_key config catalog n hc hcat (hnames n hn)
      simp [assertTargetFilters, truthy, hasKey, hloop]
  have h₃ : ∃ vs, (obj fields).get "vars" = .ok vs ∧ assertTargetVars A vs = .ok () := by
    rcases hvars with hnone | ⟨vars, hsome, hvalid⟩
    · exact ⟨undefined, get_obj_absent fields "vars" hnone (by decide) (by decide), rfl⟩
    · refine ⟨_, get_obj_of_lookup fields "vars" _ hsome, ?_⟩
      have hloop : forEachM (assertVariable A (obj vars)) (obj vars).forInKeys = .ok () := by
        rw [forEachM_ok_iff]
        intro v hv
        obtain ⟨value, hl, hmem⟩ := lookup_of_mem_keys vars v hv
        obtain ⟨hp, hval⟩ := hvalid (v, value) hmem
        exact assertVariable_of_valid A vars v value hl hp hval
      simp [assertTargetVars, truthy, hloop]
  obtain ⟨fl, hfl', hflok⟩ := h₂
  obtain ⟨vs, hvs, hvsok⟩ := h₃
  simp [assertTarget, h₁, hfl', hflok, hvs, hvsok, userAssert, typeOf, truthy_bool, bind,
    Except.bind]

/-- An entry of a valid catalog is truthy. -/
theorem truthy_of_validFilterCatalog (catalog : List (String × JSVal))
    (h : ValidFilterCatalog catalog) : ∀ p ∈ catalog, p.2.truthy = true := by
  intro p hp
  obtain ⟨fields, he, _⟩ := h p hp
  rw [he]
  rfl

/-- C11. For every config object such that `filters` is omitted or is an object whose
every entry is an object with `type` `CLICK_DELAY` or `CLICK_LOCATION`, `transport` is
omitted or is an object whose keys are all `beacon` or `image` with boolean values, and
`targets` is an object whose every target is an object with a string `finalUrl`, whose
`filters` list (if present) names only keys of the filter catalog, and whose `vars` (if
present) has only keys matching the pattern, with values that are objects which, when
`vendorAnalyticsSource` is set, name a catalog vendor defining `transport.iframe` and have
`vendorAnalyticsResponseKey` set: `assertConfig` returns the config, without error, with
its `targets` as supplied. Nothing is required of `trackingUrls`, `defaultValue`, `delay`
or the location bounds. -/
theorem C11_valid_config_accepted (ANALYTICS_CONFIG config : JSVal)
    (hvalid : ValidConfig ANALYTICS_CONFIG config) :
    ∃ out, assertConfig ANALYTICS_CONFIG config = .ok out ∧
      out.get "targets" = config.get "targets" := by
  obtain ⟨fields, catalog, hconfig, hfilters, htransport, targets, htargets, hall⟩ := hvalid
  subst hconfig
  have ho : (obj fields).typeOf = "object" := rfl
  -- the `filters` statement
  have hF : ∃ c₁, assertConfigFilters (obj fields) = .ok c₁ ∧
      c₁.get "filters" = .ok (obj catalog) ∧ (∀ p ∈ catalog, p.2.truthy = true) := by
    rcases hfilters with ⟨hnone, hcat⟩ | ⟨hsome, hcat⟩
    · have hg := get_obj_absent fields "filters" hnone (by decide) (by decide)
      obtain ⟨h₁, c₁, h₂, h₃⟩ :=
        (presence_is_truthiness (obj fields) undefined ho).1 hg rfl
      subst hcat
      exact ⟨c₁, h₂, h₃, fun _ hp => absurd hp (List.not_mem_nil _)⟩
    · have hg := get_obj_of_lookup fields "filters" _ hsome
      refine ⟨obj fields, ?_, hg, truthy_of_validFilterCatalog catalog hcat⟩
      rw [assertConfigFilters_truthy (obj fields) (obj catalog) hg rfl,
        assertFilters_of_valid catalog hcat]
      rfl
  obtain ⟨c₁, hF₁, hcat₁, htruthy⟩ := hF
  have ho₁ : c₁.typeOf = "object" := by
    obtain ⟨f, hf⟩ := get_filters_of_assertConfigFilters (obj fields) c₁ hF₁
    rw [(assertConfigFilters_ok (obj fields) c₁ f hf hF₁).2.2]
    exact ho
  -- the `transport` statement
  have hT : ∃ c₂, assertConfigTransport c₁ = .ok c₂ := by
    have hsame := assertConfigFilters_get (obj fields) c₁ "transport" hF₁ (by decide)
    rcases htransport with hnone | ⟨transport, hsome, hval⟩
    · have hg : c₁.get "transport" = .ok undefined := by
        rw [hsame]
        exact get_obj_absent fields "transport" hnone (by decide) (by decide)
      obtain ⟨_, c₂, h₂, _⟩ := (presence_is_truthiness c₁ undefined ho₁).2.2.1 hg rfl
      exact ⟨c₂, h₂⟩
    · have hg : c₁.get "transport" = .ok (obj transport) := by
        rw [hsame]
        exact get_obj_of_lookup fields "transport" _ hsome
      refine ⟨c₁, ?_⟩
      rw [assertConfigTransport_truthy c₁ (obj transport) hg rfl,
        assertTransport_of_valid transport hval]
      rfl
  obtain ⟨c₂, hT₂⟩ := hT
  have hcat₂ : c₂.get "filters" = .ok (obj catalog) := by
    rw [assertConfigTransport_get c₁ c₂ "filters" hT₂ (by decide), hcat₁]
  have hsame : c₂.get "targets" = (obj fields).get "targets" := by
    rw [assertConfigTransport_get c₁ c₂ "targets" hT₂ (by decide),
      assertConfigFilters_get (obj fields) c₁ "targets" hF₁ (by decide)]
  have hg₂ : c₂.get "targets" = .ok (obj targets) := by
    rw [hsame]
    exact get_obj_of_lookup fields "targets" _ htargets
  -- the targets
  have hA : assertTargets ANALYTICS_CONFIG (obj targets) c₂ = .ok () := by
    rw [assertTargets_of_object ANALYTICS_CONFIG (obj targets) c₂ rfl, forEachM_ok_iff]
    intro t ht
    obtain ⟨target, hl, hmem⟩ := lookup_of_mem_keys targets t ht
    have hok := assertTarget_of_valid ANALYTICS_CONFIG c₂ catalog t target hcat₂ htruthy
      (hall (t, target) hmem)
    simp [assertTargetsEntry, get_obj_of_lookup targets t target hl, hok, bind, Except.bind]
  refine ⟨c₂, ?_, hsame⟩
  rw [assertConfig_of_sections ANALYTICS_CONFIG (obj fields) c₁ c₂ (obj targets) ho hF₁ hT₂
    hg₂, hA]

/-- The config with `filters: {f1: {type: 'CLICK_DELAY', delay: 300}}` and a target that
refers to `f1` and has a variable sourced from the vendor `known` is accepted. -/
theorem C11_valid_config_accepted_witness :
    ∃ out, assertConfig sampleCatalog acceptedConfig = .ok out ∧
      out.get "targets" = acceptedConfig.get "targets" :=
  C11_valid_config_accepted sampleCatalog acceptedConfig
    ⟨[("filters", obj [("f1", obj [("type", str "CLICK_DELAY"), ("delay", num 300)])]),
        ("targets", obj [("t1", acceptedTarget)])],
      [("f1", obj [("type", str "CLICK_DELAY"), ("delay", num 300)])], rfl,
      Or.inr ⟨rfl, by
        intro p hp
        simp only [List.mem_singleton] at hp
        subst hp
        exact ⟨_, rfl, Or.inl rfl⟩⟩,
      Or.inl rfl, [("t1", acceptedTarget)], rfl, by
        intro p hp
        simp only [List.mem_singleton] at hp
        subst hp
        refine ⟨_, rfl, ⟨"https://a.example", rfl⟩, Or.inr ⟨["f1"], rfl, by simp⟩,
          Or.inr ⟨[("_v", obj [("defaultValue", str "x"),
            ("vendorAnalyticsSource", str "known"),
            ("vendorAnalyticsResponseKey", str "k")])], rfl, ?_⟩⟩
        intro q hq
        simp only [List.mem_singleton] at hq
        subst hq
        refine ⟨by decide, _, rfl, ?_⟩
        intro source hs _
        obtain rfl : str "known" = source := Except.ok.inj hs
        exact ⟨"known", str "k", rfl,
          ⟨rfl, obj [("transport", obj [("iframe", null)])], obj [("iframe", null)], null,
            rfl, rfl, rfl, rfl, rfl, rfl⟩, rfl, rfl⟩⟩

/-! ## Stage order (C15) -/

/-- The stages of `assertConfig` report in order: a failure of `assertFilters` on a truthy
`filters` is the failure of `assertConfig`, whatever `transport` and `targets` are; and
once the `filters` statement has passed, a failure of `assertTransport` on a truthy
`transport` is the failure of `assertConfig`, whatever `targets` is. -/
theorem assertConfig_stage_order (A config : JSVal) (ho : config.typeOf = "object") :
    (∀ f e, config.get "filters" = .ok f → f.truthy = true → assertFilters f = .error e →
      assertConfig A config = .error e) ∧
    (∀ c₁ tr e, assertConfigFilters config = .ok c₁ → c₁.get "transport" = .ok tr →
      tr.truthy = true → assertTransport tr = .error e →
      assertConfig A config = .error e) := by
  constructor
  · intro f e hg ht hf
    exact assertConfig_of_filters_error A config e ho
      (assertConfigFilters_of_error config f e hg ht hf)
  · intro c₁ tr e hF hg ht hf
    apply assertConfig_of_transport_error A config c₁ e ho hF
    rw [assertConfigTransport_truthy c₁ tr hg ht, hf]
    rfl

/-- A failure of `assertTransport` is UnknownTransportMode or InvalidTransportValue. -/
theorem assertTransport_error_kinds (transport : JSVal) (e : Failure)
    (h : assertTransport transport = .error e) :
    (∃ t, e = UnknownTransportMode t) ∨ e = InvalidTransportValue := by
  unfold assertTransport at h
  have hall : ∀ t ∈ transport.forInKeys, ∀ e', assertTransportEntry transport t = .error e' →
      (∃ t, e' = UnknownTransportMode t) ∨ e' = InvalidTransportValue := by
    intro t ht e' he'
    by_cases hk : t = "beacon" ∨ t = "image"
    · obtain ⟨v, hv⟩ := get_ok_of_mem_forInKeys transport t t ht
      by_cases hb : v.typeOf = "boolean"
      · obtain ⟨b, rfl⟩ := (typeOf_eq_boolean_iff v).mp hb
        rw [(assertTransportEntry_ok_iff transport t).mpr ⟨hk, b, hv⟩] at he'
        cases he'
      · rw [assertTransportEntry_bad_value transport t v hk hv hb] at he'
        exact Or.inr (Except.error.inj he').symm
    · rw [assertTransportEntry_bad_key transport t hk] at he'
      exact Or.inl ⟨t, (Except.error.inj he').symm⟩
  generalize transport.forInKeys = keys at h hall
  induction keys with
  | nil => cases h
  | cons t rest ih =>
    cases hb : assertTransportEntry transport t with
    | error e' =>
      rw [forEachM_cons_error _ t rest e' hb] at h
      obtain rfl := Except.error.inj h
      exact hall t (List.mem_cons_self t rest) _ hb
    | ok u =>
      cases u
      rw [forEachM_cons_ok _ t rest hb] at h
      exact ih h fun t' ht' => hall t' (List.mem_cons_of_mem t ht')

/-- C15 (evaluation at the failing input). The config
`{filters: {f: null}, transport: {beacon: 'yes'}}` violates a filter-catalog rule (the
entry `f` is not an object), has an invalid transport and no `targets`; `assertConfig`
fails with the `TypeError` of the read `null.type`, which is not a filter error. The
order of the stages holds: a string entry gives MalformedFilter whatever `transport` and
`targets` are, and with a valid catalog an invalid transport gives the transport error
whatever `targets` is. -/
theorem C15_null_entry_not_a_filter_error (ANALYTICS_CONFIG : JSVal) :
    assertConfig ANALYTICS_CONFIG (obj [("filters", obj [("f", null)]),
      ("transport", obj [("beacon", str "yes")])]) = .error .typeError ∧
    (∀ name, Failure.typeError ≠ MalformedFilter name) ∧
    Failure.typeError ≠ UnsupportedFilterType ∧
    (∀ transport targets, assertConfig ANALYTICS_CONFIG (obj [("filters",
      obj [("f", str "x")]), ("transport", transport), ("targets", targets)]) =
      .error (MalformedFilter "f")) ∧
    (∀ transport targets, assertConfig ANALYTICS_CONFIG (obj [("filters",
      obj [("f", obj [("type", str "bogus")])]), ("transport", transport),
      ("targets", targets)]) = .error UnsupportedFilterType) ∧
    (∀ targets, assertConfig ANALYTICS_CONFIG (obj [("filters",
      obj [("f", obj [("type", str "CLICK_DELAY")])]),
      ("transport", obj [("beacon", str "yes")]), ("targets", targets)]) =
      .error InvalidTransportValue) ∧
    (∀ targets, assertConfig ANALYTICS_CONFIG (obj [("transport", obj [("bogus", bool true)]),
      ("targets", targets)]) = .error (UnknownTransportMode "bogus")) :=
  ⟨rfl, fun _ => by simp [MalformedFilter], by simp [UnsupportedFilterType],
    fun _ _ => rfl, fun _ _ => rfl, fun _ => rfl, fun _ => rfl⟩

/-! ## Filter validation reads the type tag only (C18) -/

/-- The check of a filter entry depends only on the type of the entry and on its `type`:
two catalogs whose entries under `name` agree on these give the same outcome. -/
theorem assertFilter_congr (filters filters' entry entry' : JSVal) (name : String)
    (he : filters.get name = .ok entry) (he' : filters'.get name = .ok entry')
    (hto : entry.typeOf = entry'.typeOf) (hty : entry.get "type" = entry'.get "type") :
    assertFilter filters name = assertFilter filters' name := by
  simp only [assertFilter, he, he', hto, hty, bind, Except.bind]

/-- C18 (evaluation at the failing input). The catalog `{f: {type: ['CLICK_DELAY']}}`
has an entry whose `type` is an array, not one of the two tags, and `assertFilters`
accepts it: the comparison is the loose `==`, which converts the array to the string
`CLICK_DELAY`. The fields other than `type` are not read: an entry tagged `CLICK_DELAY`
passes and an entry tagged `bogus` fails with UnsupportedFilterType whatever other fields
follow. -/
theorem C18_array_type_accepted :
    assertFilters (obj [("f", obj [("type", arr [str "CLICK_DELAY"] [])])]) = .ok () ∧
    (obj [("type", arr [str "CLICK_DELAY"] [])]).get "type" =
      .ok (arr [str "CLICK_DELAY"] []) ∧
    (∀ other : List (String × JSVal),
      assertFilters (obj [("f", obj (("type", str "CLICK_DELAY") :: other))]) = .ok ()) ∧
    (∀ other : List (String × JSVal),
      assertFilters (obj [("f", obj (("type", str "CLICK_LOCATION") :: other))]) = .ok ()) ∧
    (∀ other : List (String × JSVal),
      assertFilters (obj [("f", obj (("type", str "bogus") :: other))]) =
        .error UnsupportedFilterType) :=
  ⟨rfl, rfl, fun _ => rfl, fun _ => rfl, fun _ => rfl⟩

end AmpAdExit
